import Mathlib

/-!
# IREE HAL device layer

A shallow embedding of `runtime/src/iree/hal/device.c`: the device-agnostic
layer that validates a request and then forwards it to the backend through
the device's method table.

Conventions of the embedding:

* a device is its backend method table (`iree_hal_device_t`); a backend method
  is a function on the backend state `σ` returning a status and the next state;
* every call that leaves `device.c` (a backend method, or a function of another
  translation unit that has an effect) is appended to a ghost log
  (`World.calls`), so "the backend is invoked exactly once with these
  arguments" and "the backend is never invoked" are statements about that log;
* nullable C pointers are `Option`; a `(count, pointer)` pair of command
  buffers is a `List` (the pair `(0, NULL)` is `[]`); the device pointer is the
  method table itself, so `IREE_ASSERT_ARGUMENT(device)` holds by construction;
* `IREE_ASSERT_ARGUMENT` is declared outside `device.c`; whether it is compiled
  in is a parameter (`Env.assertions_enabled`), and a failed assertion ends the
  call without a status (`Outcome.assertion_failed`);
* an out-parameter is passed as the content of the cell it points to and the
  new content is returned next to the outcome; string views are `String`;
* `iree_device_size_t`, flags, affinities and mode bit sets are `Nat`; no
  arithmetic is done on them in this file apart from bitwise or/and on modes;
* the `IREE_TRACE_ZONE_*` statements record trace metadata only and are left out.
-/

namespace IreeHal

/-! ## Status values -/

/-- Modelled from the spec: `iree_status_t` is declared in iree/base/status.h,
not in `device.c`; a status is "a status/result object carrying the kind and a
human-readable message". -/
structure iree_status_t where
  code : Nat
  message : String
deriving DecidableEq

/-- Modelled from the spec: the status kind "success" (iree/base/status.h). -/
def IREE_STATUS_OK : Nat := 0

/-- Modelled from the spec: the status kind "invalid-argument error"
(iree/base/status.h). -/
def IREE_STATUS_INVALID_ARGUMENT : Nat := 3

/-- Modelled from the spec: the success status `iree_ok_status()`. -/
def iree_ok_status : iree_status_t := { code := IREE_STATUS_OK, message := "" }

/-- Modelled from the spec: `iree_make_status(code, message)` builds the status
carrying that kind and message. -/
def iree_make_status (code : Nat) (message : String) : iree_status_t :=
  { code := code, message := message }

/-- Modelled from the spec: `iree_status_is_ok(status)`, the test behind
`IREE_RETURN_AND_END_ZONE_IF_ERROR`. -/
def iree_status_is_ok (status : iree_status_t) : Bool :=
  status.code == IREE_STATUS_OK

/-! ## Data model -/

/-- Device buffer handle (`iree_hal_buffer_t*` when non-null). -/
structure iree_hal_buffer_t where
  id : Nat
deriving DecidableEq

/-- Semaphore handle. -/
structure iree_hal_semaphore_t where
  id : Nat
deriving DecidableEq

/-- Host memory span `iree_byte_span_t`: base address and length. -/
structure iree_byte_span_t where
  data : Nat
  data_length : Nat
deriving DecidableEq

/-- Transfer buffer `iree_hal_transfer_buffer_t`: a host span and a nullable
device buffer; `device_buffer == NULL` marks the host variant. -/
structure iree_hal_transfer_buffer_t where
  host_buffer : iree_byte_span_t
  device_buffer : Option iree_hal_buffer_t
deriving DecidableEq

/-- Timeout `iree_timeout_t`: a kind (relative/absolute) and a nanosecond value. -/
structure iree_timeout_t where
  type : Nat
  nanos : Int
deriving DecidableEq

/-- Semaphore list `iree_hal_semaphore_list_t`: a count and two nullable arrays. -/
structure iree_hal_semaphore_list_t where
  count : Nat
  semaphores : Option (List iree_hal_semaphore_t)
  payload_values : Option (List Nat)
deriving DecidableEq

/-- Modelled from the spec: the overlap test has "categorical results
{disjoint, overlapping, unknown}"; the enum is declared in iree/hal/buffer.h.
Only the disjoint value is named in `device.c`. -/
inductive iree_hal_buffer_overlap_t where
  | IREE_HAL_BUFFER_OVERLAP_DISJOINT
  | IREE_HAL_BUFFER_OVERLAP_OVERLAPPING
  | IREE_HAL_BUFFER_OVERLAP_UNKNOWN
deriving DecidableEq

open iree_hal_buffer_overlap_t

/-- Modelled from the spec: the wait mode "is one of {all-of, any-of}"; the
enum is declared in iree/hal/semaphore.h. -/
inductive iree_hal_wait_mode_t where
  | IREE_HAL_WAIT_MODE_ALL
  | IREE_HAL_WAIT_MODE_ANY
deriving DecidableEq

/-- Command buffer: a handle together with the mode bit set it reports. -/
structure iree_hal_command_buffer_t where
  id : Nat
  mode : Nat
deriving DecidableEq

/-- Modelled from the spec: the mode getter of iree/hal/command_buffer.c
returns the "mode flag set" of the command buffer. -/
def iree_hal_command_buffer_mode (command_buffer : iree_hal_command_buffer_t) : Nat :=
  command_buffer.mode

/-- Modelled from the spec: mode bit "one-shot" (declared in
iree/hal/command_buffer.h; bit 0 there). -/
def IREE_HAL_COMMAND_BUFFER_MODE_ONE_SHOT : Nat := 1

/-- Modelled from the spec: mode bit "allow-inline-execution" (declared in
iree/hal/command_buffer.h; bit 4 there). -/
def IREE_HAL_COMMAND_BUFFER_MODE_ALLOW_INLINE_EXECUTION : Nat := 16

/-- Bit test `iree_all_bits_set(value, required)`:
`((value) & (required)) == (required)`. -/
def iree_all_bits_set (value required : Nat) : Bool :=
  (value &&& required) == required

/-- Kind tag of a transfer command (iree/hal/command_buffer.h); `device.c`
uses the copy tag only. -/
inductive iree_hal_transfer_command_type_t where
  | IREE_HAL_TRANSFER_COMMAND_TYPE_FILL
  | IREE_HAL_TRANSFER_COMMAND_TYPE_COPY
  | IREE_HAL_TRANSFER_COMMAND_TYPE_UPDATE
deriving DecidableEq

open iree_hal_transfer_command_type_t

/-- Payload `.copy` of a transfer command. -/
structure iree_hal_transfer_command_copy_t where
  source_buffer : Option iree_hal_buffer_t
  source_offset : Nat
  target_buffer : Option iree_hal_buffer_t
  target_offset : Nat
  length : Nat
deriving DecidableEq

/-- Transfer command `iree_hal_transfer_command_t`, as initialised in
`iree_hal_device_queue_copy`: a type tag and the copy payload. -/
structure iree_hal_transfer_command_t where
  type : iree_hal_transfer_command_type_t
  copy : iree_hal_transfer_command_copy_t
deriving DecidableEq

/-- File handle (`iree_hal_file_t*` when non-null). -/
structure iree_hal_file_t where
  id : Nat
deriving DecidableEq

/-- Buffer parameters `iree_hal_buffer_params_t` of a queue-ordered allocation;
`device.c` passes the value through untouched. -/
structure iree_hal_buffer_params_t where
  usage : Nat
  access : Nat
  type : Nat
  queue_affinity : Nat
  min_alignment : Nat
deriving DecidableEq

/-- Modelled from the spec: a string view (iree/base/string_view.h) is its
contents, and `iree_make_cstring_view` views a C string literal. -/
def iree_make_cstring_view (str : String) : String := str

/-- Modelled from the spec: `iree_string_view_equal` (iree/base/string_view.c)
holds when the category is "exactly equal" to the other view, that is when the
two views have the same contents. -/
def iree_string_view_equal (lhs rhs : String) : Bool := lhs == rhs

/-- Modelled from the spec: `iree_hal_make_host_transfer_buffer_span`
(iree/hal/device.h) wraps a raw pointer and a length "into the tagged Transfer
Buffer union" as the host variant. -/
def iree_hal_make_host_transfer_buffer_span (ptr : Nat) (length : Nat) :
    iree_hal_transfer_buffer_t :=
  { host_buffer := { data := ptr, data_length := length }, device_buffer := none }

/-- Modelled from the spec: `iree_hal_make_device_transfer_buffer`
(iree/hal/device.h) wraps a buffer pointer "into the tagged Transfer Buffer
union" as the device variant, with an empty host span. -/
def iree_hal_make_device_transfer_buffer (device_buffer : Option iree_hal_buffer_t) :
    iree_hal_transfer_buffer_t :=
  { host_buffer := { data := 0, data_length := 0 }, device_buffer := device_buffer }

/-! ## Ghost log of the calls that leave `device.c` -/

/-- One entry per call made out of the layer, with the arguments passed. -/
inductive Call where
  | transfer_range (source : iree_hal_transfer_buffer_t) (source_offset : Nat)
      (target : iree_hal_transfer_buffer_t) (target_offset : Nat)
      (data_length : Nat) (flags : Nat) (timeout : iree_timeout_t)
  | queue_execute (queue_affinity : Nat)
      (wait_semaphore_list signal_semaphore_list : iree_hal_semaphore_list_t)
      (command_buffer_count : Nat) (command_buffers : List iree_hal_command_buffer_t)
  | wait_semaphores (wait_mode : iree_hal_wait_mode_t)
      (semaphore_list : iree_hal_semaphore_list_t) (timeout : iree_timeout_t)
  | create_transfer_command_buffer (mode : Nat) (queue_affinity : Nat)
      (transfer_count : Nat) (transfer_commands : List iree_hal_transfer_command_t)
  | command_buffer_release (command_buffer : iree_hal_command_buffer_t)
  | id
  | query_i64 (category key : String) (out_value : Int)
  | queue_alloca (queue_affinity : Nat)
      (wait_semaphore_list signal_semaphore_list : iree_hal_semaphore_list_t)
      (pool : Nat) (params : iree_hal_buffer_params_t) (allocation_size : Nat)
      (out_buffer : Option iree_hal_buffer_t)
  | queue_dealloca (queue_affinity : Nat)
      (wait_semaphore_list signal_semaphore_list : iree_hal_semaphore_list_t)
      (buffer : Option iree_hal_buffer_t)
  | queue_read (queue_affinity : Nat)
      (wait_semaphore_list signal_semaphore_list : iree_hal_semaphore_list_t)
      (source_file : Option iree_hal_file_t) (source_offset : Nat)
      (target_buffer : Option iree_hal_buffer_t) (target_offset : Nat)
      (length : Nat) (flags : Nat)
  | queue_write (queue_affinity : Nat)
      (wait_semaphore_list signal_semaphore_list : iree_hal_semaphore_list_t)
      (source_buffer : Option iree_hal_buffer_t) (source_offset : Nat)
      (target_file : Option iree_hal_file_t) (target_offset : Nat)
      (length : Nat) (flags : Nat)
deriving DecidableEq

/-- State threaded through a call: the backend state and the ghost log. -/
structure World (σ : Type) where
  backend : σ
  calls : List Call

/-- How a call of the layer ends: it returns a status, or an argument
assertion fails and the call does not return. -/
inductive Outcome where
  | returned (status : iree_status_t)
  | assertion_failed
deriving DecidableEq

/-! ## The device method table and the other translation units -/

/-- Backend method table of a device (the entries used below). A method with
an out-parameter takes the content of the pointed-to cell and returns the new
content next to its status; `id` reads the identity string. -/
structure iree_hal_device_t (σ : Type) where
  id : σ → String
  query_i64 : String → String → Int → σ → (iree_status_t × Int) × σ
  queue_alloca : Nat → iree_hal_semaphore_list_t → iree_hal_semaphore_list_t →
    Nat → iree_hal_buffer_params_t → Nat → Option iree_hal_buffer_t → σ →
    (iree_status_t × Option iree_hal_buffer_t) × σ
  queue_dealloca : Nat → iree_hal_semaphore_list_t → iree_hal_semaphore_list_t →
    Option iree_hal_buffer_t → σ → iree_status_t × σ
  queue_read : Nat → iree_hal_semaphore_list_t → iree_hal_semaphore_list_t →
    Option iree_hal_file_t → Nat → Option iree_hal_buffer_t → Nat → Nat → Nat → σ →
    iree_status_t × σ
  queue_write : Nat → iree_hal_semaphore_list_t → iree_hal_semaphore_list_t →
    Option iree_hal_buffer_t → Nat → Option iree_hal_file_t → Nat → Nat → Nat → σ →
    iree_status_t × σ
  transfer_range : iree_hal_transfer_buffer_t → Nat → iree_hal_transfer_buffer_t →
    Nat → Nat → Nat → iree_timeout_t → σ → iree_status_t × σ
  queue_execute : Nat → iree_hal_semaphore_list_t → iree_hal_semaphore_list_t →
    Nat → List iree_hal_command_buffer_t → σ → iree_status_t × σ
  wait_semaphores : iree_hal_wait_mode_t → iree_hal_semaphore_list_t →
    iree_timeout_t → σ → iree_status_t × σ

/-- What `device.c` uses from other files of the runtime, taken as parameters:
whether `IREE_ASSERT_ARGUMENT` (iree/base/assert.h) is compiled in, the
pattern match on string views (iree/base/string_view.c, value first, pattern
second), the buffer overlap test (iree/hal/buffer.c), and creation and release
of a transfer command buffer (iree/hal/command_buffer.c). The creation function
returns its status and the value it stored in the out-parameter, which the
caller reads only when the status is OK. -/
structure Env (σ : Type) where
  assertions_enabled : Bool
  iree_string_view_match_pattern : String → String → Bool
  iree_hal_buffer_test_overlap : Option iree_hal_buffer_t → Nat → Nat →
    Option iree_hal_buffer_t → Nat → Nat → iree_hal_buffer_overlap_t
  iree_hal_create_transfer_command_buffer : iree_hal_device_t σ → Nat → Nat → Nat →
    List iree_hal_transfer_command_t → σ → (iree_status_t × iree_hal_command_buffer_t) × σ
  iree_hal_command_buffer_release : iree_hal_command_buffer_t → σ → σ

/-- Argument assertion `IREE_ASSERT_ARGUMENT(cond)`: `true` when execution
continues past it, that is when assertions are compiled out or `cond` holds. -/
def IREE_ASSERT_ARGUMENT {σ : Type} (env : Env σ) (cond : Bool) : Bool :=
  !env.assertions_enabled || cond

/-- Method dispatch `_VTABLE_DISPATCH(device, method)(device, args...)`: run
the backend method on the backend state and log the call. -/
def _VTABLE_DISPATCH {σ : Type} (call : Call) (method : σ → iree_status_t × σ)
    (w : World σ) : Outcome × World σ :=
  (Outcome.returned (method w.backend).1,
    { backend := (method w.backend).2, calls := w.calls ++ [call] })

/-- Method dispatch for a method with an out-parameter: as `_VTABLE_DISPATCH`,
with the new content of the out cell next to the outcome. -/
def _VTABLE_DISPATCH_OUT {σ α : Type} (call : Call)
    (method : σ → (iree_status_t × α) × σ) (w : World σ) : (Outcome × α) × World σ :=
  ((Outcome.returned (method w.backend).1.1, (method w.backend).1.2),
    { backend := (method w.backend).2, calls := w.calls ++ [call] })

/-! ## Identity and queries -/

/-- Embedding of `iree_hal_device_id` (device.c, lines 20-24): the backend `id`
method is dispatched and its string view returned. -/
def iree_hal_device_id {σ : Type} (device : iree_hal_device_t σ) (w : World σ) :
    String × World σ :=
  (device.id w.backend, { backend := w.backend, calls := w.calls ++ [Call.id] })

/-- Embedding of `iree_hal_device_query_i64` (device.c, lines 59-73).
`out_value` is the content of the cell the pointer designates; the new content
is returned next to the outcome, so `IREE_ASSERT_ARGUMENT(out_value)` holds by
construction. -/
def iree_hal_device_query_i64 {σ : Type} (env : Env σ) (device : iree_hal_device_t σ)
    (category key : String) (out_value : Int) (w : World σ) :
    (Outcome × Int) × World σ :=
  if iree_string_view_equal category (iree_make_cstring_view "hal.device.id") then
    let identity := iree_hal_device_id device w
    ((Outcome.returned iree_ok_status,
      if env.iree_string_view_match_pattern identity.1 key then 1 else 0), identity.2)
  else
    _VTABLE_DISPATCH_OUT (Call.query_i64 category key out_value)
      (device.query_i64 category key out_value) w

/-! ## Transfers -/

/-- Embedding of `iree_hal_device_transfer_range` (device.c, lines 84-131). -/
def iree_hal_device_transfer_range {σ : Type} (env : Env σ) (device : iree_hal_device_t σ)
    (source : iree_hal_transfer_buffer_t) (source_offset : Nat)
    (target : iree_hal_transfer_buffer_t) (target_offset : Nat)
    (data_length : Nat) (flags : Nat) (timeout : iree_timeout_t)
    (w : World σ) : Outcome × World σ :=
  if data_length == 0 then
    (Outcome.returned iree_ok_status, w)
  else
    let is_source_host := source.device_buffer.isNone
    let is_target_host := target.device_buffer.isNone
    if is_source_host && is_target_host then
      (Outcome.returned (iree_make_status IREE_STATUS_INVALID_ARGUMENT
        "cannot perform host->host transfers via this API, use memcpy/memmove"), w)
    else if !is_source_host && !is_target_host &&
        env.iree_hal_buffer_test_overlap source.device_buffer source_offset data_length
          target.device_buffer target_offset data_length
          != IREE_HAL_BUFFER_OVERLAP_DISJOINT then
      (Outcome.returned (iree_make_status IREE_STATUS_INVALID_ARGUMENT
        "source and target ranges must not overlap within the same buffer"), w)
    else
      _VTABLE_DISPATCH
        (Call.transfer_range source source_offset target target_offset data_length
          flags timeout)
        (device.transfer_range source source_offset target target_offset data_length
          flags timeout)
        w

/-- Embedding of `iree_hal_device_transfer_h2d` (device.c, lines 133-142);
`source` is the host address. -/
def iree_hal_device_transfer_h2d {σ : Type} (env : Env σ) (device : iree_hal_device_t σ)
    (source : Nat) (target : Option iree_hal_buffer_t) (target_offset : Nat)
    (data_length : Nat) (flags : Nat) (timeout : iree_timeout_t)
    (w : World σ) : Outcome × World σ :=
  iree_hal_device_transfer_range env device
    (iree_hal_make_host_transfer_buffer_span source data_length) 0
    (iree_hal_make_device_transfer_buffer target) target_offset data_length
    flags timeout w

/-- Embedding of `iree_hal_device_transfer_d2h` (device.c, lines 144-153);
`target` is the host address. -/
def iree_hal_device_transfer_d2h {σ : Type} (env : Env σ) (device : iree_hal_device_t σ)
    (source : Option iree_hal_buffer_t) (source_offset : Nat) (target : Nat)
    (data_length : Nat) (flags : Nat) (timeout : iree_timeout_t)
    (w : World σ) : Outcome × World σ :=
  iree_hal_device_transfer_range env device
    (iree_hal_make_device_transfer_buffer source) source_offset
    (iree_hal_make_host_transfer_buffer_span target data_length) 0
    data_length flags timeout w

/-- Embedding of `iree_hal_device_transfer_d2d` (device.c, lines 155-164). -/
def iree_hal_device_transfer_d2d {σ : Type} (env : Env σ) (device : iree_hal_device_t σ)
    (source : Option iree_hal_buffer_t) (source_offset : Nat)
    (target : Option iree_hal_buffer_t) (target_offset : Nat)
    (data_length : Nat) (flags : Nat) (timeout : iree_timeout_t)
    (w : World σ) : Outcome × World σ :=
  iree_hal_device_transfer_range env device
    (iree_hal_make_device_transfer_buffer source) source_offset
    (iree_hal_make_device_transfer_buffer target) target_offset data_length
    flags timeout w

/-! ## Queue submission -/

/-- Well-formedness condition asserted on a semaphore list:
`!list.count || (list.semaphores && list.payload_values)` (device.c, lines 315-320). -/
def iree_hal_semaphore_list_is_consistent (semaphore_list : iree_hal_semaphore_list_t) : Bool :=
  semaphore_list.count == 0 ||
    (semaphore_list.semaphores.isSome && semaphore_list.payload_values.isSome)

/-- The status made at device.c, lines 338-341, when an inline command buffer
is submitted with a wait. -/
def iree_hal_device_queue_execute_inline_wait_status : iree_status_t :=
  iree_make_status IREE_STATUS_INVALID_ARGUMENT
    ("inline command buffer submitted with a wait; inline command " ++
     "buffers must be ready to execute immediately")

/-- The validation loop of `iree_hal_device_queue_execute` (device.c, lines
328-343): walks the batch in order and returns the rejection status at the
first command buffer that has the allow-inline-execution bit while the wait
list is non-empty; `none` when the loop runs to its end. -/
def iree_hal_device_queue_execute_validate (wait_semaphore_list : iree_hal_semaphore_list_t) :
    List iree_hal_command_buffer_t → Option iree_status_t
  | [] => none
  | command_buffer :: rest =>
    if decide (wait_semaphore_list.count > 0) &&
        iree_all_bits_set (iree_hal_command_buffer_mode command_buffer)
          IREE_HAL_COMMAND_BUFFER_MODE_ALLOW_INLINE_EXECUTION then
      some iree_hal_device_queue_execute_inline_wait_status
    else
      iree_hal_device_queue_execute_validate wait_semaphore_list rest

/-- Embedding of `iree_hal_device_queue_execute` (device.c, lines 308-351).
The assertion `!command_buffer_count || command_buffers` holds by construction
of the list. -/
def iree_hal_device_queue_execute {σ : Type} (env : Env σ) (device : iree_hal_device_t σ)
    (queue_affinity : Nat)
    (wait_semaphore_list signal_semaphore_list : iree_hal_semaphore_list_t)
    (command_buffers : List iree_hal_command_buffer_t)
    (w : World σ) : Outcome × World σ :=
  if !IREE_ASSERT_ARGUMENT env
      (iree_hal_semaphore_list_is_consistent wait_semaphore_list) then
    (Outcome.assertion_failed, w)
  else if !IREE_ASSERT_ARGUMENT env
      (iree_hal_semaphore_list_is_consistent signal_semaphore_list) then
    (Outcome.assertion_failed, w)
  else
    match iree_hal_device_queue_execute_validate wait_semaphore_list command_buffers with
    | some status => (Outcome.returned status, w)
    | none =>
      _VTABLE_DISPATCH
        (Call.queue_execute queue_affinity wait_semaphore_list signal_semaphore_list
          command_buffers.length command_buffers)
        (device.queue_execute queue_affinity wait_semaphore_list signal_semaphore_list
          command_buffers.length command_buffers)
        w

/-- Embedding of `iree_hal_device_queue_barrier` (device.c, lines 353-364):
`queue_execute` with `(0, NULL)` as the command buffers. -/
def iree_hal_device_queue_barrier {σ : Type} (env : Env σ) (device : iree_hal_device_t σ)
    (queue_affinity : Nat)
    (wait_semaphore_list signal_semaphore_list : iree_hal_semaphore_list_t)
    (w : World σ) : Outcome × World σ :=
  iree_hal_device_queue_execute env device queue_affinity wait_semaphore_list
    signal_semaphore_list [] w

/-- Mode computed by `iree_hal_device_queue_copy` (device.c, lines 226-230). -/
def iree_hal_device_queue_copy_mode (wait_semaphore_list : iree_hal_semaphore_list_t) : Nat :=
  if wait_semaphore_list.count == 0 then
    IREE_HAL_COMMAND_BUFFER_MODE_ONE_SHOT |||
      IREE_HAL_COMMAND_BUFFER_MODE_ALLOW_INLINE_EXECUTION
  else
    IREE_HAL_COMMAND_BUFFER_MODE_ONE_SHOT

/-- Transfer command built by `iree_hal_device_queue_copy` (device.c, lines
232-242). -/
def iree_hal_device_queue_copy_command (source_buffer : Option iree_hal_buffer_t)
    (source_offset : Nat) (target_buffer : Option iree_hal_buffer_t)
    (target_offset : Nat) (length : Nat) : iree_hal_transfer_command_t :=
  { type := IREE_HAL_TRANSFER_COMMAND_TYPE_COPY,
    copy := { source_buffer := source_buffer, source_offset := source_offset,
              target_buffer := target_buffer, target_offset := target_offset,
              length := length } }

/-- Embedding of `iree_hal_device_queue_copy` (device.c, lines 211-258). -/
def iree_hal_device_queue_copy {σ : Type} (env : Env σ) (device : iree_hal_device_t σ)
    (queue_affinity : Nat)
    (wait_semaphore_list signal_semaphore_list : iree_hal_semaphore_list_t)
    (source_buffer : Option iree_hal_buffer_t) (source_offset : Nat)
    (target_buffer : Option iree_hal_buffer_t) (target_offset : Nat)
    (length : Nat) (w : World σ) : Outcome × World σ :=
  if !IREE_ASSERT_ARGUMENT env source_buffer.isSome then
    (Outcome.assertion_failed, w)
  else if !IREE_ASSERT_ARGUMENT env target_buffer.isSome then
    (Outcome.assertion_failed, w)
  else
    let command_buffer_mode := iree_hal_device_queue_copy_mode wait_semaphore_list
    let command := iree_hal_device_queue_copy_command source_buffer source_offset
      target_buffer target_offset length
    let created := env.iree_hal_create_transfer_command_buffer device command_buffer_mode
      queue_affinity 1 [command] w.backend
    let w1 : World σ :=
      { backend := created.2,
        calls := w.calls ++
          [Call.create_transfer_command_buffer command_buffer_mode queue_affinity 1
            [command]] }
    if !iree_status_is_ok created.1.1 then
      (Outcome.returned created.1.1, w1)
    else
      let command_buffer := created.1.2
      match iree_hal_device_queue_execute env device queue_affinity wait_semaphore_list
          signal_semaphore_list [command_buffer] w1 with
      | (Outcome.assertion_failed, w2) => (Outcome.assertion_failed, w2)
      | (Outcome.returned status, w2) =>
        (Outcome.returned status,
          { backend := env.iree_hal_command_buffer_release command_buffer w2.backend,
            calls := w2.calls ++ [Call.command_buffer_release command_buffer] })

/-- Embedding of `iree_hal_device_queue_alloca` (device.c, lines 166-188).
`out_buffer` is the content of the cell the pointer designates and the new
content is returned next to the outcome; it is cleared (`*out_buffer = NULL`)
once the assertions have passed. -/
def iree_hal_device_queue_alloca {σ : Type} (env : Env σ) (device : iree_hal_device_t σ)
    (queue_affinity : Nat)
    (wait_semaphore_list signal_semaphore_list : iree_hal_semaphore_list_t)
    (pool : Nat) (params : iree_hal_buffer_params_t) (allocation_size : Nat)
    (out_buffer : Option iree_hal_buffer_t)
    (w : World σ) : (Outcome × Option iree_hal_buffer_t) × World σ :=
  if !IREE_ASSERT_ARGUMENT env
      (iree_hal_semaphore_list_is_consistent wait_semaphore_list) then
    ((Outcome.assertion_failed, out_buffer), w)
  else if !IREE_ASSERT_ARGUMENT env
      (iree_hal_semaphore_list_is_consistent signal_semaphore_list) then
    ((Outcome.assertion_failed, out_buffer), w)
  else
    _VTABLE_DISPATCH_OUT
      (Call.queue_alloca queue_affinity wait_semaphore_list signal_semaphore_list pool
        params allocation_size none)
      (device.queue_alloca queue_affinity wait_semaphore_list signal_semaphore_list pool
        params allocation_size none)
      w

/-- Embedding of `iree_hal_device_queue_dealloca` (device.c, lines 190-209). -/
def iree_hal_device_queue_dealloca {σ : Type} (env : Env σ) (device : iree_hal_device_t σ)
    (queue_affinity : Nat)
    (wait_semaphore_list signal_semaphore_list : iree_hal_semaphore_list_t)
    (buffer : Option iree_hal_buffer_t)
    (w : World σ) : Outcome × World σ :=
  if !IREE_ASSERT_ARGUMENT env
      (iree_hal_semaphore_list_is_consistent wait_semaphore_list) then
    (Outcome.assertion_failed, w)
  else if !IREE_ASSERT_ARGUMENT env
      (iree_hal_semaphore_list_is_consistent signal_semaphore_list) then
    (Outcome.assertion_failed, w)
  else if !IREE_ASSERT_ARGUMENT env buffer.isSome then
    (Outcome.assertion_failed, w)
  else
    _VTABLE_DISPATCH
      (Call.queue_dealloca queue_affinity wait_semaphore_list signal_semaphore_list
        buffer)
      (device.queue_dealloca queue_affinity wait_semaphore_list signal_semaphore_list
        buffer)
      w

/-- Embedding of `iree_hal_device_queue_read` (device.c, lines 260-282). -/
def iree_hal_device_queue_read {σ : Type} (env : Env σ) (device : iree_hal_device_t σ)
    (queue_affinity : Nat)
    (wait_semaphore_list signal_semaphore_list : iree_hal_semaphore_list_t)
    (source_file : Option iree_hal_file_t) (source_offset : Nat)
    (target_buffer : Option iree_hal_buffer_t) (target_offset : Nat)
    (length : Nat) (flags : Nat)
    (w : World σ) : Outcome × World σ :=
  if !IREE_ASSERT_ARGUMENT env
      (iree_hal_semaphore_list_is_consistent wait_semaphore_list) then
    (Outcome.assertion_failed, w)
  else if !IREE_ASSERT_ARGUMENT env
      (iree_hal_semaphore_list_is_consistent signal_semaphore_list) then
    (Outcome.assertion_failed, w)
  else if !IREE_ASSERT_ARGUMENT env source_file.isSome then
    (Outcome.assertion_failed, w)
  else if !IREE_ASSERT_ARGUMENT env target_buffer.isSome then
    (Outcome.assertion_failed, w)
  else
    _VTABLE_DISPATCH
      (Call.queue_read queue_affinity wait_semaphore_list signal_semaphore_list
        source_file source_offset target_buffer target_offset length flags)
      (device.queue_read queue_affinity wait_semaphore_list signal_semaphore_list
        source_file source_offset target_buffer target_offset length flags)
      w

/-- Embedding of `iree_hal_device_queue_write` (device.c, lines 284-306). -/
def iree_hal_device_queue_write {σ : Type} (env : Env σ) (device : iree_hal_device_t σ)
    (queue_affinity : Nat)
    (wait_semaphore_list signal_semaphore_list : iree_hal_semaphore_list_t)
    (source_buffer : Option iree_hal_buffer_t) (source_offset : Nat)
    (target_file : Option iree_hal_file_t) (target_offset : Nat)
    (length : Nat) (flags : Nat)
    (w : World σ) : Outcome × World σ :=
  if !IREE_ASSERT_ARGUMENT env
      (iree_hal_semaphore_list_is_consistent wait_semaphore_list) then
    (Outcome.assertion_failed, w)
  else if !IREE_ASSERT_ARGUMENT env
      (iree_hal_semaphore_list_is_consistent signal_semaphore_list) then
    (Outcome.assertion_failed, w)
  else if !IREE_ASSERT_ARGUMENT env source_buffer.isSome then
    (Outcome.assertion_failed, w)
  else if !IREE_ASSERT_ARGUMENT env target_file.isSome then
    (Outcome.assertion_failed, w)
  else
    _VTABLE_DISPATCH
      (Call.queue_write queue_affinity wait_semaphore_list signal_semaphore_list
        source_buffer source_offset target_file target_offset length flags)
      (device.queue_write queue_affinity wait_semaphore_list signal_semaphore_list
        source_buffer source_offset target_file target_offset length flags)
      w

/-! ## Semaphore wait -/

/-- Embedding of `iree_hal_device_wait_semaphores` (device.c, lines 376-386). -/
def iree_hal_device_wait_semaphores {σ : Type} (device : iree_hal_device_t σ)
    (wait_mode : iree_hal_wait_mode_t) (semaphore_list : iree_hal_semaphore_list_t)
    (timeout : iree_timeout_t) (w : World σ) : Outcome × World σ :=
  if semaphore_list.count == 0 then
    (Outcome.returned iree_ok_status, w)
  else
    _VTABLE_DISPATCH (Call.wait_semaphores wait_mode semaphore_list timeout)
      (device.wait_semaphores wait_mode semaphore_list timeout) w

/-! ## Counting calls in the log -/

/-- Number of command buffer releases recorded in a log. -/
def command_buffer_release_count (calls : List Call) : Nat :=
  (calls.filter (fun call =>
    match call with
    | Call.command_buffer_release _ => true
    | _ => false)).length

/-! ## A concrete backend, used to evaluate the layer on explicit inputs -/

/-- Backend whose state counts the calls it has served; transfers and waits
succeed, submissions report code 14. -/
def counting_device : iree_hal_device_t Nat where
  id := fun _ => "local-task"
  query_i64 := fun _ _ _ s => ((iree_ok_status, 42), s + 1)
  queue_alloca := fun _ _ _ _ _ _ _ s => ((iree_ok_status, some { id := s }), s + 1)
  queue_dealloca := fun _ _ _ _ s => (iree_ok_status, s + 1)
  queue_read := fun _ _ _ _ _ _ _ _ _ s => (iree_ok_status, s + 1)
  queue_write := fun _ _ _ _ _ _ _ _ _ s => (iree_ok_status, s + 1)
  transfer_range := fun _ _ _ _ _ _ _ s => (iree_ok_status, s + 1)
  queue_execute := fun _ _ _ _ _ s => (iree_make_status 14 "queue unavailable", s + 1)
  wait_semaphores := fun _ _ _ s => (iree_ok_status, s + 1)

/-- Environment with assertions compiled in, a pattern match that knows the
lone wildcard and literal patterns, an interval overlap test on equal handles,
and a command buffer factory that reports the requested mode. -/
def counting_env : Env Nat where
  assertions_enabled := true
  iree_string_view_match_pattern := fun value pattern => pattern == "*" || value == pattern
  iree_hal_buffer_test_overlap := fun lhs lhs_offset lhs_length rhs rhs_offset rhs_length =>
    if lhs ≠ rhs then IREE_HAL_BUFFER_OVERLAP_DISJOINT
    else if lhs_offset + lhs_length ≤ rhs_offset ∨ rhs_offset + rhs_length ≤ lhs_offset then
      IREE_HAL_BUFFER_OVERLAP_DISJOINT
    else IREE_HAL_BUFFER_OVERLAP_OVERLAPPING
  iree_hal_create_transfer_command_buffer := fun _ mode _ _ _ s =>
    ((iree_ok_status, { id := s, mode := mode }), s + 1)
  iree_hal_command_buffer_release := fun _ s => s

def host_span_a : iree_hal_transfer_buffer_t :=
  { host_buffer := { data := 4096, data_length := 8 }, device_buffer := none }

def host_span_b : iree_hal_transfer_buffer_t :=
  { host_buffer := { data := 8192, data_length := 8 }, device_buffer := none }

def device_buffer_a : iree_hal_transfer_buffer_t :=
  { host_buffer := { data := 0, data_length := 0 }, device_buffer := some { id := 7 } }

def poll_timeout : iree_timeout_t := { type := 0, nanos := 0 }

def world0 : World Nat := { backend := 0, calls := [] }

def no_semaphores : iree_hal_semaphore_list_t :=
  { count := 0, semaphores := none, payload_values := none }

def one_semaphore : iree_hal_semaphore_list_t :=
  { count := 1, semaphores := some [{ id := 3 }], payload_values := some [5] }

/-- A malformed list: one entry announced, both arrays null. -/
def malformed_semaphores : iree_hal_semaphore_list_t :=
  { count := 1, semaphores := none, payload_values := none }

/-- The counting environment with `IREE_ASSERT_ARGUMENT` compiled out. -/
def counting_env_no_assertions : Env Nat :=
  { counting_env with assertions_enabled := false }

def plain_command_buffer : iree_hal_command_buffer_t := { id := 1, mode := 1 }

def inline_command_buffer : iree_hal_command_buffer_t := { id := 2, mode := 17 }

end IreeHal

/-!
# CPU encoding materialization

A shallow embedding of the tile selection and of the upper-bound merge of
`compiler/src/iree/compiler/Codegen/Common/CPU/CPUMaterializeEncodingPass.cpp`.

* `int64_t` tile sizes and dimensions are `Int`; the only arithmetic on them
  is `std::max` and comparison, so no wrap-around can occur;
* `FailureOr<T>` is `Option T`, `failure()` is `none`;
* a target attribute is a value of an arbitrary type `τ`; the queries on it
  and the two encoding helpers the pass calls are declared in other files of
  the compiler and are taken as parameters (`TargetQueries`).
-/

namespace IreeCompiler

/-- The marker `ShapedType::kDynamic` of MLIR for a size known only at run
time: the least `int64_t` value. -/
def ShapedType.kDynamic : Int := -9223372036854775808

/-- The encoding users the two per-architecture switches enumerate; their
`default:` branches (`assert(false)`) are for values outside the enumeration. -/
inductive EncodingUser where
  | MATMUL_F32F32F32
  | MATMUL_F16F16F32
  | MATMUL_F16F16F16
  | MATMUL_BF16BF16F32
  | MATMUL_BF16BF16BF16
  | MATMUL_I8I8I32
  | BATCH_MATMUL_F32F32F32
  | BATCH_MATMUL_F16F16F32
  | BATCH_MATMUL_F16F16F16
  | BATCH_MATMUL_BF16BF16F32
  | BATCH_MATMUL_BF16BF16BF16
  | BATCH_MATMUL_I8I8I32
deriving DecidableEq

/-- The operand of the matmul a tensor is: left, right or result. -/
inductive EncodingRole where
  | LHS
  | RHS
  | RESULT
deriving DecidableEq

/-- Tile shape `MatmulTileParams` of a matmul: `{M, K, N}`. -/
structure MatmulTileParams where
  M : Int
  K : Int
  N : Int
deriving DecidableEq

/-- Materialization record `MaterializeEncodingInfo`. -/
structure MaterializeEncodingInfo where
  innerDimsPos : List Int
  innerTileSizes : List Int
  outerDimsPerm : List Int
deriving DecidableEq

/-- Encoding attribute of a tensor type: user, role and, when present, the
shape of the original type (the pass reads nothing else of that type). -/
structure EncodingAttr where
  user : EncodingUser
  role : EncodingRole
  originalType : Option (List Int)
deriving DecidableEq

/-- Ranked tensor type: its shape and its encoding, `none` when the type has
no encoding attribute or one of another kind. -/
structure RankedTensorType where
  shape : List Int
  encoding : Option EncodingAttr
deriving DecidableEq

/-- What the pass uses from other files of the compiler, taken as parameters:
the queries on a target attribute (Codegen/Utils) and the two helpers that
turn a tile shape into a materialization record and narrow it to a static
shape (Codegen/Common/EncodingInfo). -/
structure TargetQueries (τ : Type) where
  isVMVXBackend : τ → Bool
  hasMicrokernels : τ → Bool
  isAArch64 : τ → Bool
  isX86_64 : τ → Bool
  hasFeature : τ → String → Bool
  chooseEncodingInfoForMatmul : EncodingUser → EncodingRole → MatmulTileParams →
    MaterializeEncodingInfo
  adjustTileSizesToNarrowStaticShape : MaterializeEncodingInfo → List Int →
    MaterializeEncodingInfo

open EncodingUser

/-- Embedding of `chooseMatmulTileParamsGeneric` (lines 32-41). -/
def chooseMatmulTileParamsGeneric {τ : Type} (q : TargetQueries τ) (target : τ) :
    MatmulTileParams :=
  if q.isVMVXBackend target && q.hasMicrokernels target then
    { M := ShapedType.kDynamic, K := ShapedType.kDynamic, N := ShapedType.kDynamic }
  else
    { M := 8, K := 4, N := 8 }

/-- Embedding of `chooseMatmulTileParamsAArch64` (lines 43-77). -/
def chooseMatmulTileParamsAArch64 {τ : Type} (q : TargetQueries τ) (user : EncodingUser)
    (target : τ) : MatmulTileParams :=
  match user with
  | MATMUL_F32F32F32 | MATMUL_F16F16F32 | MATMUL_F16F16F16 | MATMUL_BF16BF16F32
  | MATMUL_BF16BF16BF16 | BATCH_MATMUL_F32F32F32 | BATCH_MATMUL_F16F16F32
  | BATCH_MATMUL_F16F16F16 | BATCH_MATMUL_BF16BF16F32 | BATCH_MATMUL_BF16BF16BF16 =>
    { M := 8, K := 1, N := 8 }
  | MATMUL_I8I8I32 | BATCH_MATMUL_I8I8I32 =>
    if q.hasFeature target "+i8mm" then { M := 8, K := 8, N := 8 }
    else if q.hasFeature target "+dotprod" then { M := 8, K := 4, N := 8 }
    else { M := 8, K := 1, N := 8 }

/-- Embedding of `chooseMatmulTileParamsX86_64` (lines 79-131). -/
def chooseMatmulTileParamsX86_64 {τ : Type} (q : TargetQueries τ) (user : EncodingUser)
    (target : τ) : MatmulTileParams :=
  match user with
  | MATMUL_F32F32F32 | MATMUL_F16F16F32 | MATMUL_F16F16F16 | MATMUL_BF16BF16F32
  | MATMUL_BF16BF16BF16 | BATCH_MATMUL_F32F32F32 | BATCH_MATMUL_F16F16F32
  | BATCH_MATMUL_F16F16F16 | BATCH_MATMUL_BF16BF16F32 | BATCH_MATMUL_BF16BF16BF16 =>
    if q.hasFeature target "+avx512f" then { M := 16, K := 1, N := 16 }
    else if q.hasFeature target "+avx" then { M := 8, K := 1, N := 8 }
    else { M := 8, K := 1, N := 4 }
  | MATMUL_I8I8I32 | BATCH_MATMUL_I8I8I32 =>
    if q.hasFeature target "+avx512vnni" then { M := 16, K := 2, N := 16 }
    else if q.hasFeature target "+avx512bw" then { M := 16, K := 2, N := 16 }
    else if q.hasFeature target "+avx2" then { M := 8, K := 2, N := 8 }
    else { M := 8, K := 2, N := 4 }

/-- Embedding of `chooseMatmulTileParams` (lines 133-142). -/
def chooseMatmulTileParams {τ : Type} (q : TargetQueries τ) (user : EncodingUser)
    (target : τ) : MatmulTileParams :=
  if q.isAArch64 target then chooseMatmulTileParamsAArch64 q user target
  else if q.isX86_64 target then chooseMatmulTileParamsX86_64 q user target
  else chooseMatmulTileParamsGeneric q target

/-- Embedding of `materializeEncodingForTarget` (lines 162-184). -/
def materializeEncodingForTarget {τ : Type} (q : TargetQueries τ)
    (tensorType : RankedTensorType) (targetAttr : τ) : Option MaterializeEncodingInfo :=
  match tensorType.encoding with
  | none => none
  | some encoding =>
    let tileParams := chooseMatmulTileParams q encoding.user targetAttr
    let encodingInfo := q.chooseEncodingInfoForMatmul encoding.user encoding.role tileParams
    let originalShape :=
      match encoding.originalType with
      | some shape => shape
      | none => tensorType.shape
    if !q.isVMVXBackend targetAttr then
      some (q.adjustTileSizesToNarrowStaticShape encodingInfo originalShape)
    else
      some encodingInfo

/-- The inner loop of the upper-bound merge (lines 231-238), run over the
entries of `info`: a dynamic entry of `info` makes the result entry dynamic,
any other entry is combined with `std::max`. -/
def mergeInnerTileSizes : List Int → List Int → List Int
  | r :: result, i :: info =>
    (if i = ShapedType.kDynamic then ShapedType.kDynamic else max r i) ::
      mergeInnerTileSizes result info
  | result, [] => result
  | [], _ :: _ => []

/-- The loop over the targets of `getUpperBoundMaterializeEncodingFn` (lines
210-239), with the running `result` as an argument. -/
def upperBoundLoop {τ : Type} (q : TargetQueries τ) (tensorType : RankedTensorType) :
    Option MaterializeEncodingInfo → List τ → Option MaterializeEncodingInfo
  | result, [] => result
  | result, targetAttr :: rest =>
    match materializeEncodingForTarget q tensorType targetAttr with
    | none => upperBoundLoop q tensorType result rest
    | some info =>
      match result with
      | none => upperBoundLoop q tensorType (some info) rest
      | some res =>
        if info.innerDimsPos != res.innerDimsPos ||
            info.outerDimsPerm != res.outerDimsPerm then
          none
        else if info.innerTileSizes.length != res.innerTileSizes.length then
          none
        else
          upperBoundLoop q tensorType
            (some { res with
              innerTileSizes := mergeInnerTileSizes res.innerTileSizes info.innerTileSizes })
            rest

/-- Embedding of `getUpperBoundMaterializeEncodingFn` (lines 204-242): the
function it returns, applied to a tensor type; `result` starts as failure. -/
def getUpperBoundMaterializeEncodingFn {τ : Type} (q : TargetQueries τ)
    (targetAttrs : List τ) (tensorType : RankedTensorType) :
    Option MaterializeEncodingInfo :=
  upperBoundLoop q tensorType none targetAttrs

/-! ## Concrete targets, used to evaluate the pass on explicit inputs -/

/-- A target described by its backend, architecture and CPU features. -/
structure SampleTarget where
  backend : String
  arch : String
  features : List String
  ukernels : Bool
deriving DecidableEq

/-- Narrowing of one tile size to a static dimension of at most 1, 2 or 4;
dynamic sizes are left alone. -/
def narrowTileSize (size tileSize : Int) : Int :=
  if size = ShapedType.kDynamic ∨ tileSize = ShapedType.kDynamic then tileSize
  else
    let t1 := if size ≤ 1 ∧ 1 ≤ tileSize then 1 else tileSize
    let t2 := if size ≤ 2 ∧ 2 ≤ t1 then 2 else t1
    if size ≤ 4 ∧ 4 ≤ t2 then 4 else t2

/-- A sample instance of the parameters: targets are queried by field, the
left operand is tiled `M x K`, the right one `N x K` (transposed), the result
`M x N`, with the two matrix dimensions after the batch dimension, and the
narrowing looks up the dimension each tile applies to. -/
def sampleQueries : TargetQueries SampleTarget where
  isVMVXBackend := fun t => t.backend == "vmvx"
  hasMicrokernels := fun t => t.ukernels
  isAArch64 := fun t => t.arch == "aarch64"
  isX86_64 := fun t => t.arch == "x86_64"
  hasFeature := fun t feature => t.features.contains feature
  chooseEncodingInfoForMatmul := fun user role tileParams =>
    let base : Int :=
      match user with
      | BATCH_MATMUL_F32F32F32 | BATCH_MATMUL_F16F16F32 | BATCH_MATMUL_F16F16F16
      | BATCH_MATMUL_BF16BF16F32 | BATCH_MATMUL_BF16BF16BF16 | BATCH_MATMUL_I8I8I32 => 1
      | _ => 0
    match role with
    | EncodingRole.LHS =>
      { innerDimsPos := [base, base + 1], innerTileSizes := [tileParams.M, tileParams.K],
        outerDimsPerm := [] }
    | EncodingRole.RHS =>
      { innerDimsPos := [base + 1, base], innerTileSizes := [tileParams.N, tileParams.K],
        outerDimsPerm := if base = 1 then [0, 2, 1] else [1, 0] }
    | EncodingRole.RESULT =>
      { innerDimsPos := [base, base + 1], innerTileSizes := [tileParams.M, tileParams.N],
        outerDimsPerm := [] }
  adjustTileSizesToNarrowStaticShape := fun encodingInfo shape =>
    { encodingInfo with
      innerTileSizes :=
        List.zipWith (fun pos tileSize => narrowTileSize (shape.getD pos.toNat 0) tileSize)
          encodingInfo.innerDimsPos encodingInfo.innerTileSizes }

/-- The VMVX backend with microkernels. -/
def vmvxUkernelTarget : SampleTarget :=
  { backend := "vmvx", arch := "", features := [], ukernels := true }

/-- An x86-64 CPU target with AVX-512. -/
def x86Avx512Target : SampleTarget :=
  { backend := "llvm-cpu", arch := "x86_64", features := ["+avx512f"], ukernels := false }

/-- An AArch64 CPU target with the dot-product extension. -/
def aarch64DotprodTarget : SampleTarget :=
  { backend := "llvm-cpu", arch := "aarch64", features := ["+dotprod"], ukernels := false }

/-- The left operand of an f32 matmul, both dimensions dynamic. -/
def dynamicLhsType : RankedTensorType :=
  { shape := [ShapedType.kDynamic, ShapedType.kDynamic],
    encoding := some { user := MATMUL_F32F32F32, role := EncodingRole.LHS,
                       originalType := none } }

end IreeCompiler

namespace IreeHal

open iree_hal_buffer_overlap_t iree_hal_transfer_command_type_t

/-! ## Theorems: transfers -/

/-- C1: a transfer of length zero returns OK and leaves the world (backend
state and call log) as it was, so the backend transfer method is not invoked,
whatever the two transfer buffers, offsets, flags and timeout are. -/
theorem transfer_range_zero_length {σ : Type} (env : Env σ) (device : iree_hal_device_t σ)
    (source : iree_hal_transfer_buffer_t) (source_offset : Nat)
    (target : iree_hal_transfer_buffer_t) (target_offset : Nat)
    (flags : Nat) (timeout : iree_timeout_t) (w : World σ) :
    iree_hal_device_transfer_range env device source source_offset target target_offset
      0 flags timeout w = (Outcome.returned iree_ok_status, w) := by
  simp [iree_hal_device_transfer_range]

/-- C2, as stated, fails: with two host spans and length zero the call returns
the OK status (code 0, not the invalid-argument code) and logs nothing. -/
theorem transfer_range_host_to_host_zero_length_ok :
    host_span_a.device_buffer = none ∧ host_span_b.device_buffer = none ∧
    iree_hal_device_transfer_range counting_env counting_device host_span_a 0 host_span_b 0
      0 0 poll_timeout world0 = (Outcome.returned iree_ok_status, world0) ∧
    iree_ok_status.code ≠ IREE_STATUS_INVALID_ARGUMENT := by
  refine ⟨rfl, rfl, ?_, by decide⟩
  simp [iree_hal_device_transfer_range]

/-- C2, amended: for every transfer of non-zero length whose source and target
are both host spans, the call returns the invalid-argument status and the
world is unchanged (no backend call). -/
theorem transfer_range_host_to_host_rejected {σ : Type} (env : Env σ)
    (device : iree_hal_device_t σ)
    (source : iree_hal_transfer_buffer_t) (source_offset : Nat)
    (target : iree_hal_transfer_buffer_t) (target_offset : Nat)
    (data_length : Nat) (flags : Nat) (timeout : iree_timeout_t) (w : World σ)
    (hlen : 0 < data_length)
    (hsource : source.device_buffer = none) (htarget : target.device_buffer = none) :
    iree_hal_device_transfer_range env device source source_offset target target_offset
      data_length flags timeout w =
    (Outcome.returned (iree_make_status IREE_STATUS_INVALID_ARGUMENT
      "cannot perform host->host transfers via this API, use memcpy/memmove"), w) := by
  have hne : data_length ≠ 0 := Nat.pos_iff_ne_zero.mp hlen
  simp [iree_hal_device_transfer_range, hne, hsource, htarget]

theorem transfer_range_host_to_host_rejected_witness :
    iree_hal_device_transfer_range counting_env counting_device host_span_a 0 host_span_b 0
      8 0 poll_timeout world0 =
    (Outcome.returned (iree_make_status IREE_STATUS_INVALID_ARGUMENT
      "cannot perform host->host transfers via this API, use memcpy/memmove"), world0) :=
  transfer_range_host_to_host_rejected counting_env counting_device host_span_a 0
    host_span_b 0 8 0 poll_timeout world0 (by decide) rfl rfl

/-- C3: for a transfer of non-zero length between two device buffers, if the
overlap test on (source, source_offset, length) and (target, target_offset,
length) answers anything but disjoint, the call returns the invalid-argument
status and the world is unchanged, so the backend is not invoked. -/
theorem transfer_range_overlap_rejected {σ : Type} (env : Env σ)
    (device : iree_hal_device_t σ)
    (source : iree_hal_transfer_buffer_t) (source_offset : Nat)
    (target : iree_hal_transfer_buffer_t) (target_offset : Nat)
    (data_length : Nat) (flags : Nat) (timeout : iree_timeout_t) (w : World σ)
    (hlen : 0 < data_length)
    (hsource : source.device_buffer ≠ none) (htarget : target.device_buffer ≠ none)
    (hoverlap : env.iree_hal_buffer_test_overlap source.device_buffer source_offset
      data_length target.device_buffer target_offset data_length
      ≠ IREE_HAL_BUFFER_OVERLAP_DISJOINT) :
    iree_hal_device_transfer_range env device source source_offset target target_offset
      data_length flags timeout w =
    (Outcome.returned (iree_make_status IREE_STATUS_INVALID_ARGUMENT
      "source and target ranges must not overlap within the same buffer"), w) := by
  have hne : data_length ≠ 0 := Nat.pos_iff_ne_zero.mp hlen
  obtain ⟨sb, hsb⟩ := Option.ne_none_iff_exists'.mp hsource
  obtain ⟨tb, htb⟩ := Option.ne_none_iff_exists'.mp htarget
  rw [hsb, htb] at hoverlap
  simp [iree_hal_device_transfer_range, hne, hsb, htb, hoverlap]

theorem transfer_range_overlap_rejected_witness :
    iree_hal_device_transfer_range counting_env counting_device device_buffer_a 0
      device_buffer_a 4 8 0 poll_timeout world0 =
    (Outcome.returned (iree_make_status IREE_STATUS_INVALID_ARGUMENT
      "source and target ranges must not overlap within the same buffer"), world0) :=
  transfer_range_overlap_rejected counting_env counting_device device_buffer_a 0
    device_buffer_a 4 8 0 poll_timeout world0 (by decide) (by decide) (by decide)
    (by decide)

/-- C4: a transfer of non-zero length that is neither host-to-host nor a
device-to-device transfer with a non-disjoint overlap answer returns exactly
the status of the backend `transfer_range` method run on the same source,
source offset, target, target offset, length, flags and timeout; the backend
state is the one that single call leaves and the log grows by that one call.
In particular a device-to-device transfer on one buffer whose ranges test
disjoint returns an OK status exactly when the backend does. -/
theorem transfer_range_forwards {σ : Type} (env : Env σ) (device : iree_hal_device_t σ)
    (source : iree_hal_transfer_buffer_t) (source_offset : Nat)
    (target : iree_hal_transfer_buffer_t) (target_offset : Nat)
    (data_length : Nat) (flags : Nat) (timeout : iree_timeout_t) (w : World σ)
    (hlen : 0 < data_length)
    (hnot_h2h : ¬ (source.device_buffer = none ∧ target.device_buffer = none))
    (hnot_overlap : ¬ (source.device_buffer ≠ none ∧ target.device_buffer ≠ none ∧
      env.iree_hal_buffer_test_overlap source.device_buffer source_offset data_length
        target.device_buffer target_offset data_length
        ≠ IREE_HAL_BUFFER_OVERLAP_DISJOINT)) :
    iree_hal_device_transfer_range env device source source_offset target target_offset
      data_length flags timeout w =
    (Outcome.returned
      (device.transfer_range source source_offset target target_offset data_length flags
        timeout w.backend).1,
     { backend :=
        (device.transfer_range source source_offset target target_offset data_length flags
          timeout w.backend).2,
       calls := w.calls ++
        [Call.transfer_range source source_offset target target_offset data_length flags
          timeout] }) ∧
    (∀ buffer : iree_hal_buffer_t,
      source.device_buffer = some buffer → target.device_buffer = some buffer →
      ∃ status : iree_status_t,
        (iree_hal_device_transfer_range env device source source_offset target
          target_offset data_length flags timeout w).1 = Outcome.returned status ∧
        (iree_status_is_ok status = true ↔
          iree_status_is_ok
            (device.transfer_range source source_offset target target_offset data_length
              flags timeout w.backend).1 = true)) := by
  have hne : data_length ≠ 0 := Nat.pos_iff_ne_zero.mp hlen
  have key : iree_hal_device_transfer_range env device source source_offset target
      target_offset data_length flags timeout w =
    (Outcome.returned
      (device.transfer_range source source_offset target target_offset data_length flags
        timeout w.backend).1,
     { backend :=
        (device.transfer_range source source_offset target target_offset data_length flags
          timeout w.backend).2,
       calls := w.calls ++
        [Call.transfer_range source source_offset target target_offset data_length flags
          timeout] }) := by
    cases hs : source.device_buffer with
    | none =>
      cases ht : target.device_buffer with
      | none => exact absurd ⟨hs, ht⟩ hnot_h2h
      | some tb => simp [iree_hal_device_transfer_range, _VTABLE_DISPATCH, hne, hs, ht]
    | some sb =>
      cases ht : target.device_buffer with
      | none => simp [iree_hal_device_transfer_range, _VTABLE_DISPATCH, hne, hs, ht]
      | some tb =>
        have hd : env.iree_hal_buffer_test_overlap (some sb) source_offset data_length
            (some tb) target_offset data_length = IREE_HAL_BUFFER_OVERLAP_DISJOINT := by
          by_contra hcon
          apply hnot_overlap
          rw [hs, ht]
          exact ⟨by simp, by simp, hcon⟩
        simp [iree_hal_device_transfer_range, _VTABLE_DISPATCH, hne, hs, ht, hd]
  refine ⟨key, ?_⟩
  intro buffer _ _
  exact ⟨_, by rw [key], Iff.rfl⟩

/-- Witness for C4: a device-to-device transfer on one buffer with the disjoint
ranges [0, 8) and [8, 16) reaches the counting backend once. -/
theorem transfer_range_forwards_witness :
    iree_hal_device_transfer_range counting_env counting_device device_buffer_a 0
      device_buffer_a 8 8 0 poll_timeout world0 =
    (Outcome.returned iree_ok_status,
     { backend := 1,
       calls := [Call.transfer_range device_buffer_a 0 device_buffer_a 8 8 0
         poll_timeout] }) :=
  (transfer_range_forwards counting_env counting_device device_buffer_a 0
    device_buffer_a 8 8 0 poll_timeout world0 (by decide) (by decide) (by decide)).1

/-! ## Theorems: queue submission -/

/-- The validation loop answers with the rejection status or not at all. -/
theorem queue_execute_validate_cases (wait_semaphore_list : iree_hal_semaphore_list_t)
    (command_buffers : List iree_hal_command_buffer_t) :
    iree_hal_device_queue_execute_validate wait_semaphore_list command_buffers = none ∨
    iree_hal_device_queue_execute_validate wait_semaphore_list command_buffers =
      some iree_hal_device_queue_execute_inline_wait_status := by
  induction command_buffers with
  | nil => left; rfl
  | cons cb rest ih =>
    unfold iree_hal_device_queue_execute_validate
    split
    · right; rfl
    · exact ih

/-- The validation loop rejects exactly when the wait list is non-empty and
some command buffer of the batch has the allow-inline-execution bit. -/
theorem queue_execute_validate_eq_some_iff (wait_semaphore_list : iree_hal_semaphore_list_t)
    (command_buffers : List iree_hal_command_buffer_t) :
    iree_hal_device_queue_execute_validate wait_semaphore_list command_buffers =
      some iree_hal_device_queue_execute_inline_wait_status ↔
    (0 < wait_semaphore_list.count ∧
      ∃ cb ∈ command_buffers,
        iree_all_bits_set (iree_hal_command_buffer_mode cb)
          IREE_HAL_COMMAND_BUFFER_MODE_ALLOW_INLINE_EXECUTION = true) := by
  induction command_buffers with
  | nil => simp [iree_hal_device_queue_execute_validate]
  | cons cb rest ih =>
    unfold iree_hal_device_queue_execute_validate
    by_cases hw : 0 < wait_semaphore_list.count
    · by_cases hb : iree_all_bits_set (iree_hal_command_buffer_mode cb)
          IREE_HAL_COMMAND_BUFFER_MODE_ALLOW_INLINE_EXECUTION = true
      · simp [hw, hb]
      · simp only [Bool.not_eq_true] at hb
        simp [hw, hb, ih]
    · simp [hw, ih]

/-- The validation loop lets the batch through exactly when the wait list is
empty or no command buffer has the allow-inline-execution bit. -/
theorem queue_execute_validate_eq_none_iff (wait_semaphore_list : iree_hal_semaphore_list_t)
    (command_buffers : List iree_hal_command_buffer_t) :
    iree_hal_device_queue_execute_validate wait_semaphore_list command_buffers = none ↔
    (wait_semaphore_list.count = 0 ∨
      ∀ cb ∈ command_buffers,
        iree_all_bits_set (iree_hal_command_buffer_mode cb)
          IREE_HAL_COMMAND_BUFFER_MODE_ALLOW_INLINE_EXECUTION = false) := by
  induction command_buffers with
  | nil => simp [iree_hal_device_queue_execute_validate]
  | cons cb rest ih =>
    unfold iree_hal_device_queue_execute_validate
    by_cases hw : 0 < wait_semaphore_list.count
    · have hw0 : wait_semaphore_list.count ≠ 0 := Nat.pos_iff_ne_zero.mp hw
      by_cases hb : iree_all_bits_set (iree_hal_command_buffer_mode cb)
          IREE_HAL_COMMAND_BUFFER_MODE_ALLOW_INLINE_EXECUTION = true
      · simp [hw, hw0, hb]
      · simp only [Bool.not_eq_true] at hb
        simp [hw, hw0, hb, ih]
    · have hw0 : wait_semaphore_list.count = 0 := by omega
      simp only [hw0, lt_self_iff_false, decide_False, Bool.false_and, Bool.false_eq_true,
        if_false, true_or, iff_true]
      exact ih.mpr (Or.inl hw0)

/-- When both argument assertions pass, `queue_execute` is its validation loop
followed by the backend dispatch. -/
theorem queue_execute_of_assertions_pass {σ : Type} (env : Env σ)
    (device : iree_hal_device_t σ) (queue_affinity : Nat)
    (wait_semaphore_list signal_semaphore_list : iree_hal_semaphore_list_t)
    (command_buffers : List iree_hal_command_buffer_t) (w : World σ)
    (hargs : env.assertions_enabled = false ∨
      (iree_hal_semaphore_list_is_consistent wait_semaphore_list = true ∧
       iree_hal_semaphore_list_is_consistent signal_semaphore_list = true)) :
    iree_hal_device_queue_execute env device queue_affinity wait_semaphore_list
      signal_semaphore_list command_buffers w =
    match iree_hal_device_queue_execute_validate wait_semaphore_list command_buffers with
    | some status => (Outcome.returned status, w)
    | none =>
      (Outcome.returned
        (device.queue_execute queue_affinity wait_semaphore_list signal_semaphore_list
          command_buffers.length command_buffers w.backend).1,
       { backend :=
          (device.queue_execute queue_affinity wait_semaphore_list signal_semaphore_list
            command_buffers.length command_buffers w.backend).2,
         calls := w.calls ++
          [Call.queue_execute queue_affinity wait_semaphore_list signal_semaphore_list
            command_buffers.length command_buffers] }) := by
  unfold iree_hal_device_queue_execute IREE_ASSERT_ARGUMENT _VTABLE_DISPATCH
  rcases hargs with h | ⟨h1, h2⟩
  · simp [h]
  · simp [h1, h2]

/-- Whatever the arguments, `queue_execute` leaves the world untouched unless
it reaches the backend dispatch. -/
theorem queue_execute_world_of_validate_some {σ : Type} (env : Env σ)
    (device : iree_hal_device_t σ) (queue_affinity : Nat)
    (wait_semaphore_list signal_semaphore_list : iree_hal_semaphore_list_t)
    (command_buffers : List iree_hal_command_buffer_t) (w : World σ)
    (status : iree_status_t)
    (hval : iree_hal_device_queue_execute_validate wait_semaphore_list command_buffers =
      some status) :
    (iree_hal_device_queue_execute env device queue_affinity wait_semaphore_list
      signal_semaphore_list command_buffers w).2 = w := by
  unfold iree_hal_device_queue_execute
  split
  · rfl
  · split
    · rfl
    · simp [hval]

/-- C5: when the wait list is non-empty and some command buffer of the batch,
at any position, has the allow-inline-execution bit, `queue_execute` leaves the
world unchanged (the backend `queue_execute` method is not invoked, for no part
of the batch), and on every call that passes the argument assertions it returns
the invalid-argument status, whatever the modes of the other command buffers. -/
theorem queue_execute_rejects_inline_with_wait {σ : Type} (env : Env σ)
    (device : iree_hal_device_t σ) (queue_affinity : Nat)
    (wait_semaphore_list signal_semaphore_list : iree_hal_semaphore_list_t)
    (command_buffers : List iree_hal_command_buffer_t) (w : World σ)
    (hwait : 0 < wait_semaphore_list.count)
    (hinline : ∃ cb ∈ command_buffers,
      iree_all_bits_set (iree_hal_command_buffer_mode cb)
        IREE_HAL_COMMAND_BUFFER_MODE_ALLOW_INLINE_EXECUTION = true) :
    (iree_hal_device_queue_execute env device queue_affinity wait_semaphore_list
      signal_semaphore_list command_buffers w).2 = w ∧
    ((env.assertions_enabled = false ∨
        (iree_hal_semaphore_list_is_consistent wait_semaphore_list = true ∧
         iree_hal_semaphore_list_is_consistent signal_semaphore_list = true)) →
      iree_hal_device_queue_execute env device queue_affinity wait_semaphore_list
        signal_semaphore_list command_buffers w =
      (Outcome.returned (iree_make_status IREE_STATUS_INVALID_ARGUMENT
        ("inline command buffer submitted with a wait; inline command " ++
         "buffers must be ready to execute immediately")), w)) := by
  have hval := (queue_execute_validate_eq_some_iff wait_semaphore_list command_buffers).mpr
    ⟨hwait, hinline⟩
  refine ⟨queue_execute_world_of_validate_some env device queue_affinity
    wait_semaphore_list signal_semaphore_list command_buffers w _ hval, ?_⟩
  intro hargs
  rw [queue_execute_of_assertions_pass env device queue_affinity wait_semaphore_list
    signal_semaphore_list command_buffers w hargs, hval]
  rfl

/-- Witness for C5: a plain command buffer followed by an inline one, submitted
with one wait semaphore, is rejected and the counting backend is not reached. -/
theorem queue_execute_rejects_inline_with_wait_witness :
    (iree_hal_device_queue_execute counting_env counting_device 1 one_semaphore
      no_semaphores [plain_command_buffer, inline_command_buffer] world0).2 = world0 ∧
    iree_hal_device_queue_execute counting_env counting_device 1 one_semaphore
      no_semaphores [plain_command_buffer, inline_command_buffer] world0 =
    (Outcome.returned (iree_make_status IREE_STATUS_INVALID_ARGUMENT
      ("inline command buffer submitted with a wait; inline command " ++
       "buffers must be ready to execute immediately")), world0) :=
  have h := queue_execute_rejects_inline_with_wait counting_env counting_device 1
    one_semaphore no_semaphores [plain_command_buffer, inline_command_buffer] world0
    (by decide) ⟨inline_command_buffer, by simp, by decide⟩
  ⟨h.1, h.2 (Or.inr ⟨by decide, by decide⟩)⟩

/-- C6: on a call that passes the argument assertions, (1) if the wait list is
empty or no command buffer has the allow-inline-execution bit, the result is
the status of the backend `queue_execute` method run once on the unchanged
affinity, wait list, signal list and batch, and the log grows by that one
call; (2) the call ends as the layer's own rejection (the invalid-argument
status with the world untouched) if and only if the wait list is non-empty and
some command buffer has the allow-inline-execution bit. -/
theorem queue_execute_forwards {σ : Type} (env : Env σ)
    (device : iree_hal_device_t σ) (queue_affinity : Nat)
    (wait_semaphore_list signal_semaphore_list : iree_hal_semaphore_list_t)
    (command_buffers : List iree_hal_command_buffer_t) (w : World σ)
    (hargs : env.assertions_enabled = false ∨
      (iree_hal_semaphore_list_is_consistent wait_semaphore_list = true ∧
       iree_hal_semaphore_list_is_consistent signal_semaphore_list = true)) :
    ((wait_semaphore_list.count = 0 ∨
        ∀ cb ∈ command_buffers,
          iree_all_bits_set (iree_hal_command_buffer_mode cb)
            IREE_HAL_COMMAND_BUFFER_MODE_ALLOW_INLINE_EXECUTION = false) →
      iree_hal_device_queue_execute env device queue_affinity wait_semaphore_list
        signal_semaphore_list command_buffers w =
      (Outcome.returned
        (device.queue_execute queue_affinity wait_semaphore_list signal_semaphore_list
          command_buffers.length command_buffers w.backend).1,
       { backend :=
          (device.queue_execute queue_affinity wait_semaphore_list signal_semaphore_list
            command_buffers.length command_buffers w.backend).2,
         calls := w.calls ++
          [Call.queue_execute queue_affinity wait_semaphore_list signal_semaphore_list
            command_buffers.length command_buffers] })) ∧
    (iree_hal_device_queue_execute env device queue_affinity wait_semaphore_list
        signal_semaphore_list command_buffers w =
      (Outcome.returned (iree_make_status IREE_STATUS_INVALID_ARGUMENT
        ("inline command buffer submitted with a wait; inline command " ++
         "buffers must be ready to execute immediately")), w) ↔
      (0 < wait_semaphore_list.count ∧
        ∃ cb ∈ command_buffers,
          iree_all_bits_set (iree_hal_command_buffer_mode cb)
            IREE_HAL_COMMAND_BUFFER_MODE_ALLOW_INLINE_EXECUTION = true)) := by
  have hexec := queue_execute_of_assertions_pass env device queue_affinity
    wait_semaphore_list signal_semaphore_list command_buffers w hargs
  constructor
  · intro hpass
    have hnone := (queue_execute_validate_eq_none_iff wait_semaphore_list
      command_buffers).mpr hpass
    rw [hexec, hnone]
  · constructor
    · intro hrej
      rcases queue_execute_validate_cases wait_semaphore_list command_buffers with hn | hs
      · exfalso
        rw [hexec, hn] at hrej
        have hlen := congrArg (fun r : Outcome × World σ => r.2.calls.length) hrej
        simp at hlen
      · exact (queue_execute_validate_eq_some_iff wait_semaphore_list command_buffers).mp hs
    · intro hcond
      have hs := (queue_execute_validate_eq_some_iff wait_semaphore_list
        command_buffers).mpr hcond
      rw [hexec, hs]
      rfl

/-- Witness for C6: with no wait semaphores an inline command buffer goes to
the counting backend, whose status (code 14) comes back unchanged. -/
theorem queue_execute_forwards_witness :
    iree_hal_device_queue_execute counting_env counting_device 1 no_semaphores
      one_semaphore [inline_command_buffer] world0 =
    (Outcome.returned (iree_make_status 14 "queue unavailable"),
     { backend := 1,
       calls := [Call.queue_execute 1 no_semaphores one_semaphore 1
         [inline_command_buffer]] }) :=
  (queue_execute_forwards counting_env counting_device 1 no_semaphores one_semaphore
    [inline_command_buffer] world0 (Or.inr ⟨by decide, by decide⟩)).1 (Or.inl rfl)

/-- C7: `queue_barrier(d, a, W, S)` is `queue_execute(d, a, W, S, 0, NULL)`:
same outcome and same world. It never ends as the inline-with-wait rejection,
and on every call that passes the argument assertions it reaches the backend
`queue_execute` method once, with zero command buffers, and returns its
status, also when the wait list is non-empty. -/
theorem queue_barrier_is_empty_execute {σ : Type} (env : Env σ)
    (device : iree_hal_device_t σ) (queue_affinity : Nat)
    (wait_semaphore_list signal_semaphore_list : iree_hal_semaphore_list_t)
    (w : World σ) :
    iree_hal_device_queue_barrier env device queue_affinity wait_semaphore_list
        signal_semaphore_list w =
      iree_hal_device_queue_execute env device queue_affinity wait_semaphore_list
        signal_semaphore_list [] w ∧
    iree_hal_device_queue_barrier env device queue_affinity wait_semaphore_list
        signal_semaphore_list w ≠
      (Outcome.returned (iree_make_status IREE_STATUS_INVALID_ARGUMENT
        ("inline command buffer submitted with a wait; inline command " ++
         "buffers must be ready to execute immediately")), w) ∧
    ((env.assertions_enabled = false ∨
        (iree_hal_semaphore_list_is_consistent wait_semaphore_list = true ∧
         iree_hal_semaphore_list_is_consistent signal_semaphore_list = true)) →
      iree_hal_device_queue_barrier env device queue_affinity wait_semaphore_list
        signal_semaphore_list w =
      (Outcome.returned
        (device.queue_execute queue_affinity wait_semaphore_list signal_semaphore_list
          0 [] w.backend).1,
       { backend :=
          (device.queue_execute queue_affinity wait_semaphore_list signal_semaphore_list
            0 [] w.backend).2,
         calls := w.calls ++
          [Call.queue_execute queue_affinity wait_semaphore_list signal_semaphore_list
            0 []] })) := by
  refine ⟨rfl, ?_, ?_⟩
  · intro hrej
    unfold iree_hal_device_queue_barrier iree_hal_device_queue_execute at hrej
    split at hrej
    · simp at hrej
    · split at hrej
      · simp at hrej
      · simp only [iree_hal_device_queue_execute_validate, _VTABLE_DISPATCH] at hrej
        have hlen := congrArg (fun r : Outcome × World σ => r.2.calls.length) hrej
        simp at hlen
  · intro hargs
    unfold iree_hal_device_queue_barrier
    rw [queue_execute_of_assertions_pass env device queue_affinity wait_semaphore_list
      signal_semaphore_list [] w hargs]
    rfl

/-- Witness for C7: a barrier behind one wait semaphore reaches the counting
backend with an empty batch. -/
theorem queue_barrier_is_empty_execute_witness :
    iree_hal_device_queue_barrier counting_env counting_device 1 one_semaphore
      no_semaphores world0 =
    (Outcome.returned (iree_make_status 14 "queue unavailable"),
     { backend := 1,
       calls := [Call.queue_execute 1 one_semaphore no_semaphores 0 []] }) :=
  (queue_barrier_is_empty_execute counting_env counting_device 1 one_semaphore
    no_semaphores world0).2.2 (Or.inr ⟨by decide, by decide⟩)

/-- The log after `queue_execute` is the log before it, plus at most the one
backend call. -/
theorem queue_execute_calls {σ : Type} (env : Env σ)
    (device : iree_hal_device_t σ) (queue_affinity : Nat)
    (wait_semaphore_list signal_semaphore_list : iree_hal_semaphore_list_t)
    (command_buffers : List iree_hal_command_buffer_t) (w : World σ) :
    (iree_hal_device_queue_execute env device queue_affinity wait_semaphore_list
      signal_semaphore_list command_buffers w).2.calls = w.calls ∨
    (iree_hal_device_queue_execute env device queue_affinity wait_semaphore_list
      signal_semaphore_list command_buffers w).2.calls =
      w.calls ++ [Call.queue_execute queue_affinity wait_semaphore_list
        signal_semaphore_list command_buffers.length command_buffers] := by
  unfold iree_hal_device_queue_execute
  split
  · left; rfl
  · split
    · left; rfl
    · split
      · left; rfl
      · right; rfl

/-- Shape of the log after `queue_copy` on a call that passes its own argument
assertions: the creation request comes first, then at most one submission and
at most one release. -/
theorem queue_copy_calls {σ : Type} (env : Env σ) (device : iree_hal_device_t σ)
    (queue_affinity : Nat)
    (wait_semaphore_list signal_semaphore_list : iree_hal_semaphore_list_t)
    (source_buffer : Option iree_hal_buffer_t) (source_offset : Nat)
    (target_buffer : Option iree_hal_buffer_t) (target_offset : Nat)
    (length : Nat) (w : World σ)
    (hargs : env.assertions_enabled = false ∨
      (source_buffer ≠ none ∧ target_buffer ≠ none)) :
    ∃ rest : List Call,
      (iree_hal_device_queue_copy env device queue_affinity wait_semaphore_list
        signal_semaphore_list source_buffer source_offset target_buffer target_offset
        length w).2.calls =
      w.calls ++
        Call.create_transfer_command_buffer
          (iree_hal_device_queue_copy_mode wait_semaphore_list) queue_affinity 1
          [iree_hal_device_queue_copy_command source_buffer source_offset target_buffer
            target_offset length] :: rest ∧
      ∀ mode affinity count commands,
        Call.create_transfer_command_buffer mode affinity count commands ∉ rest := by
  have h1 : IREE_ASSERT_ARGUMENT env source_buffer.isSome = true := by
    rcases hargs with h | ⟨h, _⟩
    · simp [IREE_ASSERT_ARGUMENT, h]
    · simp [IREE_ASSERT_ARGUMENT, Option.isSome_iff_ne_none.mpr h]
  have h2 : IREE_ASSERT_ARGUMENT env target_buffer.isSome = true := by
    rcases hargs with h | ⟨_, h⟩
    · simp [IREE_ASSERT_ARGUMENT, h]
    · simp [IREE_ASSERT_ARGUMENT, Option.isSome_iff_ne_none.mpr h]
  unfold iree_hal_device_queue_copy
  simp only [h1, h2, Bool.not_true, Bool.false_eq_true, if_false]
  split
  · exact ⟨[], by simp, by simp⟩
  · generalize env.iree_hal_create_transfer_command_buffer device
      (iree_hal_device_queue_copy_mode wait_semaphore_list) queue_affinity 1
      [iree_hal_device_queue_copy_command source_buffer source_offset target_buffer
        target_offset length] w.backend = created
    have hq := queue_execute_calls env device queue_affinity wait_semaphore_list
      signal_semaphore_list [created.1.2]
      { backend := created.2,
        calls := w.calls ++
          [Call.create_transfer_command_buffer
            (iree_hal_device_queue_copy_mode wait_semaphore_list) queue_affinity 1
            [iree_hal_device_queue_copy_command source_buffer source_offset target_buffer
              target_offset length]] }
    generalize iree_hal_device_queue_execute env device queue_affinity wait_semaphore_list
      signal_semaphore_list [created.1.2]
      { backend := created.2,
        calls := w.calls ++
          [Call.create_transfer_command_buffer
            (iree_hal_device_queue_copy_mode wait_semaphore_list) queue_affinity 1
            [iree_hal_device_queue_copy_command source_buffer source_offset target_buffer
              target_offset length]] } = r at hq
    obtain ⟨o, w2⟩ := r
    cases o with
    | assertion_failed =>
      rcases hq with hq | hq
      · exact ⟨[], by simpa using hq, by simp⟩
      · exact ⟨[Call.queue_execute queue_affinity wait_semaphore_list
          signal_semaphore_list 1 [created.1.2]], by simpa using hq, by simp⟩
    | returned status =>
      rcases hq with hq | hq
      · refine ⟨[Call.command_buffer_release created.1.2], ?_, by simp⟩
        simp only at hq ⊢
        rw [hq]
        simp
      · refine ⟨[Call.queue_execute queue_affinity wait_semaphore_list
          signal_semaphore_list 1 [created.1.2],
          Call.command_buffer_release created.1.2], ?_, by simp⟩
        simp only at hq ⊢
        rw [hq]
        simp

/-- C8: the creation requests that `queue_copy` makes all carry the mode
ONE_SHOT | ALLOW_INLINE_EXECUTION when the wait list has count 0 and exactly
ONE_SHOT (inline bit clear) when it has count > 0, the caller's affinity, and
exactly one command, the copy of the caller's source buffer, source offset,
target buffer, target offset and length; on a call that passes the argument
assertions there is exactly one such request and it is the first call made. -/
theorem queue_copy_mode_and_command {σ : Type} (env : Env σ) (device : iree_hal_device_t σ)
    (queue_affinity : Nat)
    (wait_semaphore_list signal_semaphore_list : iree_hal_semaphore_list_t)
    (source_buffer : Option iree_hal_buffer_t) (source_offset : Nat)
    (target_buffer : Option iree_hal_buffer_t) (target_offset : Nat)
    (length : Nat) (w : World σ) :
    ∃ mode : Nat,
      (wait_semaphore_list.count = 0 →
        mode = IREE_HAL_COMMAND_BUFFER_MODE_ONE_SHOT |||
          IREE_HAL_COMMAND_BUFFER_MODE_ALLOW_INLINE_EXECUTION ∧
        iree_all_bits_set mode IREE_HAL_COMMAND_BUFFER_MODE_ALLOW_INLINE_EXECUTION = true) ∧
      (0 < wait_semaphore_list.count →
        mode = IREE_HAL_COMMAND_BUFFER_MODE_ONE_SHOT ∧
        iree_all_bits_set mode IREE_HAL_COMMAND_BUFFER_MODE_ALLOW_INLINE_EXECUTION = false) ∧
      (∃ added : List Call,
        (iree_hal_device_queue_copy env device queue_affinity wait_semaphore_list
          signal_semaphore_list source_buffer source_offset target_buffer target_offset
          length w).2.calls = w.calls ++ added ∧
        ∀ m a n commands, Call.create_transfer_command_buffer m a n commands ∈ added →
          m = mode ∧ a = queue_affinity ∧ n = 1 ∧
          commands =
            [{ type := IREE_HAL_TRANSFER_COMMAND_TYPE_COPY,
               copy := { source_buffer := source_buffer, source_offset := source_offset,
                         target_buffer := target_buffer, target_offset := target_offset,
                         length := length } }]) ∧
      ((env.assertions_enabled = false ∨
          (source_buffer ≠ none ∧ target_buffer ≠ none)) →
        ∃ rest : List Call,
          (iree_hal_device_queue_copy env device queue_affinity wait_semaphore_list
            signal_semaphore_list source_buffer source_offset target_buffer target_offset
            length w).2.calls =
          w.calls ++
            Call.create_transfer_command_buffer mode queue_affinity 1
              [{ type := IREE_HAL_TRANSFER_COMMAND_TYPE_COPY,
                 copy := { source_buffer := source_buffer, source_offset := source_offset,
                           target_buffer := target_buffer, target_offset := target_offset,
                           length := length } }] :: rest ∧
          ∀ m a n commands,
            Call.create_transfer_command_buffer m a n commands ∉ rest) := by
  refine ⟨iree_hal_device_queue_copy_mode wait_semaphore_list, ?_, ?_, ?_, ?_⟩
  · intro h0
    simp only [iree_hal_device_queue_copy_mode, h0, beq_self_eq_true, if_true, true_and]
    decide
  · intro hpos
    have hne : wait_semaphore_list.count ≠ 0 := Nat.pos_iff_ne_zero.mp hpos
    simp only [iree_hal_device_queue_copy_mode, beq_iff_eq, hne, if_false, true_and]
    decide
  · by_cases hargs : env.assertions_enabled = false ∨
        (source_buffer ≠ none ∧ target_buffer ≠ none)
    · obtain ⟨rest, hcalls, hrest⟩ := queue_copy_calls env device queue_affinity
        wait_semaphore_list signal_semaphore_list source_buffer source_offset target_buffer
        target_offset length w hargs
      refine ⟨_, hcalls, ?_⟩
      intro m a n commands hmem
      rcases List.mem_cons.mp hmem with heq | hin
      · simp only [Call.create_transfer_command_buffer.injEq] at heq
        obtain ⟨hm, ha, hn, hc⟩ := heq
        exact ⟨hm, ha, hn, by rw [hc]; rfl⟩
      · exact absurd hin (hrest m a n commands)
    · refine ⟨[], ?_, by simp⟩
      have hen : env.assertions_enabled = true := by
        cases h : env.assertions_enabled with
        | false => exact absurd (Or.inl h) hargs
        | true => rfl
      have hnull : source_buffer = none ∨ target_buffer = none := by
        by_contra hcon
        push_neg at hcon
        exact hargs (Or.inr hcon)
      unfold iree_hal_device_queue_copy IREE_ASSERT_ARGUMENT
      rcases hnull with h | h
      · simp [hen, h]
      · cases source_buffer <;> simp [hen, h]
  · intro hargs
    exact queue_copy_calls env device queue_affinity wait_semaphore_list
      signal_semaphore_list source_buffer source_offset target_buffer target_offset
      length w hargs

/-- Witness for C8: a copy behind one wait semaphore asks for a ONE_SHOT
command buffer (mode 1) holding the one copy command. -/
theorem queue_copy_mode_and_command_witness :
    ∃ rest : List Call,
      (iree_hal_device_queue_copy counting_env counting_device 1 one_semaphore
        no_semaphores (some { id := 7 }) 0 (some { id := 9 }) 16 32 world0).2.calls =
      world0.calls ++
        Call.create_transfer_command_buffer 1 1 1
          [{ type := IREE_HAL_TRANSFER_COMMAND_TYPE_COPY,
             copy := { source_buffer := some { id := 7 }, source_offset := 0,
                       target_buffer := some { id := 9 }, target_offset := 16,
                       length := 32 } }] :: rest :=
  match queue_copy_mode_and_command counting_env counting_device 1 one_semaphore
    no_semaphores (some { id := 7 }) 0 (some { id := 9 }) 16 32 world0 with
  | ⟨_, _, hpos, _, hexists⟩ =>
    match hexists (Or.inr ⟨by decide, by decide⟩) with
    | ⟨rest, hcalls, _⟩ => ⟨rest, by rw [hcalls, (hpos (by decide)).1]; rfl⟩

/-- C9: on a call of `queue_copy` that passes the argument assertions:
if creation of the command buffer fails, the creation status is returned and
the only call made is the creation request (no submission, no release);
if it succeeds, `queue_execute` is run on the one created command buffer,
returns some status (OK or not), the command buffer is then released, as the
last call and only there, and that status is what `queue_copy` returns.
In both cases the number of releases added to the log is the number of
successful creations (1 or 0). -/
theorem queue_copy_releases_once {σ : Type} (env : Env σ) (device : iree_hal_device_t σ)
    (queue_affinity : Nat)
    (wait_semaphore_list signal_semaphore_list : iree_hal_semaphore_list_t)
    (source_buffer : Option iree_hal_buffer_t) (source_offset : Nat)
    (target_buffer : Option iree_hal_buffer_t) (target_offset : Nat)
    (length : Nat) (w : World σ)
    (created : (iree_status_t × iree_hal_command_buffer_t) × σ)
    (hcreated : env.iree_hal_create_transfer_command_buffer device
      (iree_hal_device_queue_copy_mode wait_semaphore_list) queue_affinity 1
      [iree_hal_device_queue_copy_command source_buffer source_offset target_buffer
        target_offset length] w.backend = created)
    (hcopy : env.assertions_enabled = false ∨
      (source_buffer ≠ none ∧ target_buffer ≠ none))
    (hexec : env.assertions_enabled = false ∨
      (iree_hal_semaphore_list_is_consistent wait_semaphore_list = true ∧
       iree_hal_semaphore_list_is_consistent signal_semaphore_list = true)) :
    (iree_status_is_ok created.1.1 = false →
      iree_hal_device_queue_copy env device queue_affinity wait_semaphore_list
        signal_semaphore_list source_buffer source_offset target_buffer target_offset
        length w =
      (Outcome.returned created.1.1,
       { backend := created.2,
         calls := w.calls ++
          [Call.create_transfer_command_buffer
            (iree_hal_device_queue_copy_mode wait_semaphore_list) queue_affinity 1
            [iree_hal_device_queue_copy_command source_buffer source_offset target_buffer
              target_offset length]] })) ∧
    (iree_status_is_ok created.1.1 = true →
      ∃ (status : iree_status_t) (w2 : World σ),
        iree_hal_device_queue_execute env device queue_affinity wait_semaphore_list
          signal_semaphore_list [created.1.2]
          { backend := created.2,
            calls := w.calls ++
              [Call.create_transfer_command_buffer
                (iree_hal_device_queue_copy_mode wait_semaphore_list) queue_affinity 1
                [iree_hal_device_queue_copy_command source_buffer source_offset
                  target_buffer target_offset length]] } =
          (Outcome.returned status, w2) ∧
        iree_hal_device_queue_copy env device queue_affinity wait_semaphore_list
          signal_semaphore_list source_buffer source_offset target_buffer target_offset
          length w =
        (Outcome.returned status,
         { backend := env.iree_hal_command_buffer_release created.1.2 w2.backend,
           calls := w2.calls ++ [Call.command_buffer_release created.1.2] }) ∧
        command_buffer_release_count w2.calls = command_buffer_release_count w.calls) ∧
    command_buffer_release_count
        (iree_hal_device_queue_copy env device queue_affinity wait_semaphore_list
          signal_semaphore_list source_buffer source_offset target_buffer target_offset
          length w).2.calls =
      command_buffer_release_count w.calls +
        (if iree_status_is_ok created.1.1 = true then 1 else 0) := by
  have h1 : IREE_ASSERT_ARGUMENT env source_buffer.isSome = true := by
    rcases hcopy with h | ⟨h, _⟩
    · simp [IREE_ASSERT_ARGUMENT, h]
    · simp [IREE_ASSERT_ARGUMENT, Option.isSome_iff_ne_none.mpr h]
  have h2 : IREE_ASSERT_ARGUMENT env target_buffer.isSome = true := by
    rcases hcopy with h | ⟨_, h⟩
    · simp [IREE_ASSERT_ARGUMENT, h]
    · simp [IREE_ASSERT_ARGUMENT, Option.isSome_iff_ne_none.mpr h]
  have hfail : iree_status_is_ok created.1.1 = false →
      iree_hal_device_queue_copy env device queue_affinity wait_semaphore_list
        signal_semaphore_list source_buffer source_offset target_buffer target_offset
        length w =
      (Outcome.returned created.1.1,
       { backend := created.2,
         calls := w.calls ++
          [Call.create_transfer_command_buffer
            (iree_hal_device_queue_copy_mode wait_semaphore_list) queue_affinity 1
            [iree_hal_device_queue_copy_command source_buffer source_offset target_buffer
              target_offset length]] }) := by
    intro hbad
    unfold iree_hal_device_queue_copy
    simp only [h1, h2, Bool.not_true, Bool.false_eq_true, if_false, hcreated, hbad,
      Bool.not_false, if_true]
  have hok : iree_status_is_ok created.1.1 = true →
      ∃ (status : iree_status_t) (w2 : World σ),
        iree_hal_device_queue_execute env device queue_affinity wait_semaphore_list
          signal_semaphore_list [created.1.2]
          { backend := created.2,
            calls := w.calls ++
              [Call.create_transfer_command_buffer
                (iree_hal_device_queue_copy_mode wait_semaphore_list) queue_affinity 1
                [iree_hal_device_queue_copy_command source_buffer source_offset
                  target_buffer target_offset length]] } =
          (Outcome.returned status, w2) ∧
        iree_hal_device_queue_copy env device queue_affinity wait_semaphore_list
          signal_semaphore_list source_buffer source_offset target_buffer target_offset
          length w =
        (Outcome.returned status,
         { backend := env.iree_hal_command_buffer_release created.1.2 w2.backend,
           calls := w2.calls ++ [Call.command_buffer_release created.1.2] }) ∧
        command_buffer_release_count w2.calls = command_buffer_release_count w.calls := by
    intro hgood
    have hq := queue_execute_of_assertions_pass env device queue_affinity
      wait_semaphore_list signal_semaphore_list [created.1.2]
      { backend := created.2,
        calls := w.calls ++
          [Call.create_transfer_command_buffer
            (iree_hal_device_queue_copy_mode wait_semaphore_list) queue_affinity 1
            [iree_hal_device_queue_copy_command source_buffer source_offset
              target_buffer target_offset length]] } hexec
    rcases queue_execute_validate_cases wait_semaphore_list [created.1.2] with hv | hv
    · rw [hv] at hq
      refine ⟨_, _, hq, ?_, ?_⟩
      · unfold iree_hal_device_queue_copy
        simp only [h1, h2, Bool.not_true, Bool.false_eq_true, if_false, hcreated, hgood]
        rw [hq]
      · simp [command_buffer_release_count, List.filter_append]
    · rw [hv] at hq
      refine ⟨_, _, hq, ?_, ?_⟩
      · unfold iree_hal_device_queue_copy
        simp only [h1, h2, Bool.not_true, Bool.false_eq_true, if_false, hcreated, hgood]
        rw [hq]
      · simp [command_buffer_release_count, List.filter_append]
  refine ⟨hfail, hok, ?_⟩
  cases hs : iree_status_is_ok created.1.1 with
  | false =>
    rw [hfail hs]
    simp [command_buffer_release_count, List.filter_append]
  | true =>
    obtain ⟨status, w2, _, hcopyeq, hcount⟩ := hok hs
    rw [hcopyeq]
    simp only [if_true]
    rw [← hcount]
    simp [command_buffer_release_count, List.filter_append]

/-- Witness for C9: on the counting backend the submission fails with code 14;
the command buffer created for the copy is still released, once and last. -/
theorem queue_copy_releases_once_witness :
    iree_hal_device_queue_copy counting_env counting_device 1 no_semaphores
      no_semaphores (some { id := 7 }) 0 (some { id := 9 }) 16 32 world0 =
    (Outcome.returned (iree_make_status 14 "queue unavailable"),
     { backend := 2,
       calls :=
        [Call.create_transfer_command_buffer 17 1 1
          [iree_hal_device_queue_copy_command (some { id := 7 }) 0 (some { id := 9 }) 16 32],
         Call.queue_execute 1 no_semaphores no_semaphores 1 [{ id := 0, mode := 17 }],
         Call.command_buffer_release { id := 0, mode := 17 }] }) ∧
    command_buffer_release_count
      (iree_hal_device_queue_copy counting_env counting_device 1 no_semaphores
        no_semaphores (some { id := 7 }) 0 (some { id := 9 }) 16 32 world0).2.calls = 1 :=
  have h := queue_copy_releases_once counting_env counting_device 1 no_semaphores
    no_semaphores (some { id := 7 }) 0 (some { id := 9 }) 16 32 world0
    ((iree_ok_status, { id := 0, mode := 17 }), 1) rfl
    (Or.inr ⟨by decide, by decide⟩) (Or.inr ⟨by decide, by decide⟩)
  ⟨by rfl, h.2.2⟩

/-! ## Theorems: semaphore wait -/

/-- C10: `wait_semaphores` on a list of count 0 returns OK and leaves the world
unchanged (the backend `wait_semaphores` method is not invoked), for every
wait mode and timeout; on a list of count > 0 it returns the status of the
backend method run once on the same wait mode, list and timeout, and the log
grows by that one call. -/
theorem wait_semaphores_empty_or_forward {σ : Type} (device : iree_hal_device_t σ)
    (wait_mode : iree_hal_wait_mode_t) (semaphore_list : iree_hal_semaphore_list_t)
    (timeout : iree_timeout_t) (w : World σ) :
    (semaphore_list.count = 0 →
      iree_hal_device_wait_semaphores device wait_mode semaphore_list timeout w =
        (Outcome.returned iree_ok_status, w)) ∧
    (0 < semaphore_list.count →
      iree_hal_device_wait_semaphores device wait_mode semaphore_list timeout w =
        (Outcome.returned (device.wait_semaphores wait_mode semaphore_list timeout
          w.backend).1,
         { backend := (device.wait_semaphores wait_mode semaphore_list timeout
            w.backend).2,
           calls := w.calls ++ [Call.wait_semaphores wait_mode semaphore_list timeout] })) := by
  constructor
  · intro h0
    simp [iree_hal_device_wait_semaphores, h0]
  · intro hpos
    have hne : semaphore_list.count ≠ 0 := Nat.pos_iff_ne_zero.mp hpos
    simp [iree_hal_device_wait_semaphores, _VTABLE_DISPATCH, hne]

/-- Witness for C10: an any-of wait with a zero timeout on the empty list is a
no-op, and on a one-element list it reaches the counting backend once. -/
theorem wait_semaphores_empty_or_forward_witness :
    iree_hal_device_wait_semaphores counting_device
        iree_hal_wait_mode_t.IREE_HAL_WAIT_MODE_ANY no_semaphores poll_timeout world0 =
      (Outcome.returned iree_ok_status, world0) ∧
    iree_hal_device_wait_semaphores counting_device
        iree_hal_wait_mode_t.IREE_HAL_WAIT_MODE_ALL one_semaphore poll_timeout world0 =
      (Outcome.returned iree_ok_status,
       { backend := 1,
         calls := [Call.wait_semaphores iree_hal_wait_mode_t.IREE_HAL_WAIT_MODE_ALL
           one_semaphore poll_timeout] }) :=
  ⟨(wait_semaphores_empty_or_forward counting_device
      iree_hal_wait_mode_t.IREE_HAL_WAIT_MODE_ANY no_semaphores poll_timeout world0).1 rfl,
   (wait_semaphores_empty_or_forward counting_device
      iree_hal_wait_mode_t.IREE_HAL_WAIT_MODE_ALL one_semaphore poll_timeout world0).2
      (by decide)⟩

/-! ## Theorems: identity query -/

/-- C11: when the category is exactly "hal.device.id", `query_i64` returns OK,
the out value becomes 1 if the device identity string matches the key as a
pattern and 0 otherwise, and the only call made is the backend `id` getter
(the backend `query_i64` method is not invoked, the backend state is
unchanged); for every other category the result is the status and out value of
the backend `query_i64` method run once on the same category, key and out
cell. -/
theorem query_i64_device_id_or_forward {σ : Type} (env : Env σ)
    (device : iree_hal_device_t σ) (category key : String) (out_value : Int)
    (w : World σ) :
    (category = "hal.device.id" →
      iree_hal_device_query_i64 env device category key out_value w =
        ((Outcome.returned iree_ok_status,
          if env.iree_string_view_match_pattern (device.id w.backend) key = true
          then 1 else 0),
         { backend := w.backend, calls := w.calls ++ [Call.id] })) ∧
    (category ≠ "hal.device.id" →
      iree_hal_device_query_i64 env device category key out_value w =
        ((Outcome.returned (device.query_i64 category key out_value w.backend).1.1,
          (device.query_i64 category key out_value w.backend).1.2),
         { backend := (device.query_i64 category key out_value w.backend).2,
           calls := w.calls ++ [Call.query_i64 category key out_value] })) := by
  constructor
  · intro hcat
    simp [iree_hal_device_query_i64, iree_string_view_equal, iree_make_cstring_view,
      iree_hal_device_id, hcat]
  · intro hcat
    simp [iree_hal_device_query_i64, iree_string_view_equal, iree_make_cstring_view,
      _VTABLE_DISPATCH_OUT, hcat]

/-- Witness for C11: the wildcard key matches the identity of the counting
device without a backend query; another category is forwarded. -/
theorem query_i64_device_id_or_forward_witness :
    iree_hal_device_query_i64 counting_env counting_device "hal.device.id" "*" 7 world0 =
      ((Outcome.returned iree_ok_status, 1), { backend := 0, calls := [Call.id] }) ∧
    iree_hal_device_query_i64 counting_env counting_device "hal.executable.format"
        "vmvx-bytecode-fb" 7 world0 =
      ((Outcome.returned iree_ok_status, 42),
       { backend := 1,
         calls := [Call.query_i64 "hal.executable.format" "vmvx-bytecode-fb" 7] }) :=
  ⟨(query_i64_device_id_or_forward counting_env counting_device "hal.device.id" "*" 7
      world0).1 rfl,
   (query_i64_device_id_or_forward counting_env counting_device "hal.executable.format"
      "vmvx-bytecode-fb" 7 world0).2 (by decide)⟩

/-! ## Theorems: malformed semaphore lists -/

/-- C12, as stated, fails: (1) `wait_semaphores` hands a malformed list (count
1, both arrays null) to the backend and returns its OK status; (2) with the
argument assertions compiled out `queue_execute` hands a malformed wait list to
the backend; (3) with the assertions compiled in `queue_copy` has already
requested the command buffer when the malformed list is looked at. -/
theorem malformed_semaphore_list_reaches_backend :
    0 < malformed_semaphores.count ∧ malformed_semaphores.semaphores = none ∧
    iree_hal_device_wait_semaphores counting_device
        iree_hal_wait_mode_t.IREE_HAL_WAIT_MODE_ALL malformed_semaphores poll_timeout
        world0 =
      (Outcome.returned iree_ok_status,
       { backend := 1,
         calls := [Call.wait_semaphores iree_hal_wait_mode_t.IREE_HAL_WAIT_MODE_ALL
           malformed_semaphores poll_timeout] }) ∧
    iree_hal_device_queue_execute counting_env_no_assertions counting_device 1
        malformed_semaphores no_semaphores [] world0 =
      (Outcome.returned (iree_make_status 14 "queue unavailable"),
       { backend := 1,
         calls := [Call.queue_execute 1 malformed_semaphores no_semaphores 0 []] }) ∧
    iree_hal_device_queue_copy counting_env counting_device 1 malformed_semaphores
        no_semaphores (some { id := 7 }) 0 (some { id := 9 }) 16 32 world0 =
      (Outcome.assertion_failed,
       { backend := 1,
         calls := [Call.create_transfer_command_buffer 1 1 1
           [iree_hal_device_queue_copy_command (some { id := 7 }) 0 (some { id := 9 })
             16 32]] }) := by
  refine ⟨by decide, rfl, ?_, ?_, ?_⟩
  · rfl
  · rfl
  · rfl

/-- C12, amended: with the argument assertions compiled in, a malformed wait
or signal list (count > 0 with a null semaphore array or a null payload array)
stops `queue_alloca`, `queue_dealloca`, `queue_read`, `queue_write`,
`queue_execute` and `queue_barrier` at the assertion: no status is returned
and the world (backend state and call log) is untouched. -/
theorem malformed_semaphore_list_stops_at_assertion {σ : Type} (env : Env σ)
    (device : iree_hal_device_t σ) (queue_affinity : Nat)
    (wait_semaphore_list signal_semaphore_list : iree_hal_semaphore_list_t)
    (pool : Nat) (params : iree_hal_buffer_params_t) (allocation_size : Nat)
    (out_buffer buffer source_buffer target_buffer : Option iree_hal_buffer_t)
    (source_file target_file : Option iree_hal_file_t)
    (source_offset target_offset length flags : Nat)
    (command_buffers : List iree_hal_command_buffer_t) (w : World σ)
    (hassert : env.assertions_enabled = true)
    (hmalformed :
      (0 < wait_semaphore_list.count ∧
        (wait_semaphore_list.semaphores = none ∨
          wait_semaphore_list.payload_values = none)) ∨
      (0 < signal_semaphore_list.count ∧
        (signal_semaphore_list.semaphores = none ∨
          signal_semaphore_list.payload_values = none))) :
    iree_hal_device_queue_alloca env device queue_affinity wait_semaphore_list
        signal_semaphore_list pool params allocation_size out_buffer w =
      ((Outcome.assertion_failed, out_buffer), w) ∧
    iree_hal_device_queue_dealloca env device queue_affinity wait_semaphore_list
        signal_semaphore_list buffer w = (Outcome.assertion_failed, w) ∧
    iree_hal_device_queue_read env device queue_affinity wait_semaphore_list
        signal_semaphore_list source_file source_offset target_buffer target_offset
        length flags w = (Outcome.assertion_failed, w) ∧
    iree_hal_device_queue_write env device queue_affinity wait_semaphore_list
        signal_semaphore_list source_buffer source_offset target_file target_offset
        length flags w = (Outcome.assertion_failed, w) ∧
    iree_hal_device_queue_execute env device queue_affinity wait_semaphore_list
        signal_semaphore_list command_buffers w = (Outcome.assertion_failed, w) ∧
    iree_hal_device_queue_barrier env device queue_affinity wait_semaphore_list
        signal_semaphore_list w = (Outcome.assertion_failed, w) := by
  have hbad : IREE_ASSERT_ARGUMENT env
        (iree_hal_semaphore_list_is_consistent wait_semaphore_list) = false ∨
      IREE_ASSERT_ARGUMENT env
        (iree_hal_semaphore_list_is_consistent signal_semaphore_list) = false := by
    rcases hmalformed with ⟨hpos, hnull⟩ | ⟨hpos, hnull⟩
    · left
      have hne : wait_semaphore_list.count ≠ 0 := Nat.pos_iff_ne_zero.mp hpos
      rcases hnull with h | h <;>
        simp [IREE_ASSERT_ARGUMENT, iree_hal_semaphore_list_is_consistent, hassert, hne, h]
    · right
      have hne : signal_semaphore_list.count ≠ 0 := Nat.pos_iff_ne_zero.mp hpos
      rcases hnull with h | h <;>
        simp [IREE_ASSERT_ARGUMENT, iree_hal_semaphore_list_is_consistent, hassert, hne, h]
  unfold iree_hal_device_queue_barrier
  unfold iree_hal_device_queue_alloca iree_hal_device_queue_dealloca
    iree_hal_device_queue_read iree_hal_device_queue_write iree_hal_device_queue_execute
  rcases hbad with h | h
  · simp [h]
  · cases hw : IREE_ASSERT_ARGUMENT env
        (iree_hal_semaphore_list_is_consistent wait_semaphore_list) <;> simp [h]

/-- Witness for C12 (amended): a submission behind the malformed list stops at
the assertion of the counting environment, the backend untouched. -/
theorem malformed_semaphore_list_stops_at_assertion_witness :
    iree_hal_device_queue_execute counting_env counting_device 1 malformed_semaphores
      no_semaphores [plain_command_buffer] world0 = (Outcome.assertion_failed, world0) :=
  (malformed_semaphore_list_stops_at_assertion counting_env counting_device 1
    malformed_semaphores no_semaphores 0
    { usage := 0, access := 0, type := 0, queue_affinity := 0, min_alignment := 0 } 64
    none none none none none none 0 0 0 0 [plain_command_buffer] world0 rfl
    (Or.inl ⟨by decide, Or.inl rfl⟩)).2.2.2.2.1

/-! ## Theorems: transfer wrappers and queued copies -/

/-- C13: `transfer_h2d`, `transfer_d2h` and `transfer_d2d` are `transfer_range`
on the wrapped endpoints: a host address becomes the host span of that address
whose length is the transfer length, used at base offset 0; a buffer pointer
becomes the device variant and keeps the caller's offset; length, flags and
timeout pass through. So a host-to-device transfer of non-zero length into a
non-null buffer reaches the backend once with exactly those arguments. -/
theorem transfer_wrappers_are_transfer_range {σ : Type} (env : Env σ)
    (device : iree_hal_device_t σ) (host_ptr : Nat)
    (source target : Option iree_hal_buffer_t) (source_offset target_offset : Nat)
    (n : Nat) (flags : Nat) (timeout : iree_timeout_t) (w : World σ) :
    iree_hal_device_transfer_h2d env device host_ptr target target_offset n flags
        timeout w =
      iree_hal_device_transfer_range env device
        { host_buffer := { data := host_ptr, data_length := n }, device_buffer := none } 0
        { host_buffer := { data := 0, data_length := 0 }, device_buffer := target }
        target_offset n flags timeout w ∧
    iree_hal_device_transfer_d2h env device source source_offset host_ptr n flags
        timeout w =
      iree_hal_device_transfer_range env device
        { host_buffer := { data := 0, data_length := 0 }, device_buffer := source }
        source_offset
        { host_buffer := { data := host_ptr, data_length := n }, device_buffer := none } 0
        n flags timeout w ∧
    iree_hal_device_transfer_d2d env device source source_offset target target_offset n
        flags timeout w =
      iree_hal_device_transfer_range env device
        { host_buffer := { data := 0, data_length := 0 }, device_buffer := source }
        source_offset
        { host_buffer := { data := 0, data_length := 0 }, device_buffer := target }
        target_offset n flags timeout w ∧
    (0 < n → target ≠ none →
      (iree_hal_device_transfer_h2d env device host_ptr target target_offset n flags
        timeout w).2.calls =
      w.calls ++
        [Call.transfer_range
          { host_buffer := { data := host_ptr, data_length := n }, device_buffer := none }
          0 { host_buffer := { data := 0, data_length := 0 }, device_buffer := target }
          target_offset n flags timeout]) := by
  refine ⟨rfl, rfl, rfl, ?_⟩
  intro hn htarget
  have hne : n ≠ 0 := Nat.pos_iff_ne_zero.mp hn
  obtain ⟨b, hb⟩ := Option.ne_none_iff_exists.mp htarget
  subst hb
  simp [iree_hal_device_transfer_h2d, iree_hal_device_transfer_range,
    iree_hal_make_host_transfer_buffer_span, iree_hal_make_device_transfer_buffer,
    _VTABLE_DISPATCH, hne]

/-- Witness for C13: eight bytes from host address 4096 into buffer 7 at
offset 24 reach the counting backend as one `transfer_range` call. -/
theorem transfer_wrappers_are_transfer_range_witness :
    (iree_hal_device_transfer_h2d counting_env counting_device 4096 (some { id := 7 }) 24
      8 0 poll_timeout world0).2.calls =
    world0.calls ++
      [Call.transfer_range
        { host_buffer := { data := 4096, data_length := 8 }, device_buffer := none } 0
        { host_buffer := { data := 0, data_length := 0 },
          device_buffer := some { id := 7 } } 24 8 0 poll_timeout] :=
  (transfer_wrappers_are_transfer_range counting_env counting_device 4096 none
    (some { id := 7 }) 0 24 8 0 poll_timeout world0).2.2.2 (by decide) (by decide)

/-- C15: on a call of `queue_copy` that passes the argument assertions, if
creation succeeds and the created command buffer reports the mode it was
created with, the backend `queue_execute` method is invoked exactly once, with
the batch made of that one command buffer, between the creation and the
release; `queue_copy` returns the backend status, and the call does not end as
the inline-with-wait rejection of the layer. -/
theorem queue_copy_never_trips_inline_wait {σ : Type} (env : Env σ)
    (device : iree_hal_device_t σ) (queue_affinity : Nat)
    (wait_semaphore_list signal_semaphore_list : iree_hal_semaphore_list_t)
    (source_buffer : Option iree_hal_buffer_t) (source_offset : Nat)
    (target_buffer : Option iree_hal_buffer_t) (target_offset : Nat)
    (length : Nat) (w : World σ)
    (created : (iree_status_t × iree_hal_command_buffer_t) × σ)
    (hcreated : env.iree_hal_create_transfer_command_buffer device
      (iree_hal_device_queue_copy_mode wait_semaphore_list) queue_affinity 1
      [iree_hal_device_queue_copy_command source_buffer source_offset target_buffer
        target_offset length] w.backend = created)
    (hok : iree_status_is_ok created.1.1 = true)
    (hmode : iree_hal_command_buffer_mode created.1.2 =
      iree_hal_device_queue_copy_mode wait_semaphore_list)
    (hcopy : env.assertions_enabled = false ∨
      (source_buffer ≠ none ∧ target_buffer ≠ none))
    (hexec : env.assertions_enabled = false ∨
      (iree_hal_semaphore_list_is_consistent wait_semaphore_list = true ∧
       iree_hal_semaphore_list_is_consistent signal_semaphore_list = true)) :
    iree_hal_device_queue_copy env device queue_affinity wait_semaphore_list
        signal_semaphore_list source_buffer source_offset target_buffer target_offset
        length w =
      (Outcome.returned
        (device.queue_execute queue_affinity wait_semaphore_list signal_semaphore_list 1
          [created.1.2] created.2).1,
       { backend := env.iree_hal_command_buffer_release created.1.2
          (device.queue_execute queue_affinity wait_semaphore_list signal_semaphore_list 1
            [created.1.2] created.2).2,
         calls := w.calls ++
          [Call.create_transfer_command_buffer
            (iree_hal_device_queue_copy_mode wait_semaphore_list) queue_affinity 1
            [iree_hal_device_queue_copy_command source_buffer source_offset target_buffer
              target_offset length],
           Call.queue_execute queue_affinity wait_semaphore_list signal_semaphore_list 1
            [created.1.2],
           Call.command_buffer_release created.1.2] }) ∧
    iree_hal_device_queue_execute_validate wait_semaphore_list [created.1.2] = none := by
  have h1 : IREE_ASSERT_ARGUMENT env source_buffer.isSome = true := by
    rcases hcopy with h | ⟨h, _⟩
    · simp [IREE_ASSERT_ARGUMENT, h]
    · simp [IREE_ASSERT_ARGUMENT, Option.isSome_iff_ne_none.mpr h]
  have h2 : IREE_ASSERT_ARGUMENT env target_buffer.isSome = true := by
    rcases hcopy with h | ⟨_, h⟩
    · simp [IREE_ASSERT_ARGUMENT, h]
    · simp [IREE_ASSERT_ARGUMENT, Option.isSome_iff_ne_none.mpr h]
  have hval : iree_hal_device_queue_execute_validate wait_semaphore_list [created.1.2] =
      none := by
    rw [queue_execute_validate_eq_none_iff]
    by_cases h0 : wait_semaphore_list.count = 0
    · exact Or.inl h0
    · right
      intro cb hcb
      rw [List.mem_singleton] at hcb
      subst hcb
      rw [hmode]
      simp only [iree_hal_device_queue_copy_mode, beq_iff_eq, h0, if_false]
      decide
  refine ⟨?_, hval⟩
  have hq := queue_execute_of_assertions_pass env device queue_affinity
    wait_semaphore_list signal_semaphore_list [created.1.2]
    { backend := created.2,
      calls := w.calls ++
        [Call.create_transfer_command_buffer
          (iree_hal_device_queue_copy_mode wait_semaphore_list) queue_affinity 1
          [iree_hal_device_queue_copy_command source_buffer source_offset
            target_buffer target_offset length]] } hexec
  rw [hval] at hq
  unfold iree_hal_device_queue_copy
  simp only [h1, h2, Bool.not_true, Bool.false_eq_true, if_false, hcreated, hok]
  rw [hq]
  simp

/-- Witness for C15: a copy behind one wait semaphore on the counting backend;
the factory reports the requested mode (1), the submission is made once and
its status (code 14) is what the copy returns. -/
theorem queue_copy_never_trips_inline_wait_witness :
    iree_hal_device_queue_copy counting_env counting_device 1 one_semaphore
      no_semaphores (some { id := 7 }) 0 (some { id := 9 }) 16 32 world0 =
    (Outcome.returned (iree_make_status 14 "queue unavailable"),
     { backend := 2,
       calls :=
        [Call.create_transfer_command_buffer 1 1 1
          [iree_hal_device_queue_copy_command (some { id := 7 }) 0 (some { id := 9 }) 16 32],
         Call.queue_execute 1 one_semaphore no_semaphores 1 [{ id := 0, mode := 1 }],
         Call.command_buffer_release { id := 0, mode := 1 }] }) :=
  (queue_copy_never_trips_inline_wait counting_env counting_device 1 one_semaphore
    no_semaphores (some { id := 7 }) 0 (some { id := 9 }) 16 32 world0
    ((iree_ok_status, { id := 0, mode := 1 }), 1) rfl rfl rfl
    (Or.inr ⟨by decide, by decide⟩) (Or.inr ⟨by decide, by decide⟩)).1

end IreeHal

namespace IreeCompiler

open EncodingUser

/-! ## Theorems: CPU encoding materialization -/

/-- With two targets that both materialize and agree on the dimension
positions, the permutation and the number of tiles, the upper bound is the
first record with its tiles merged entry by entry with the second's. -/
theorem getUpperBound_two_targets {τ : Type} (q : TargetQueries τ)
    (tensorType : RankedTensorType) (first second : τ)
    (a b : MaterializeEncodingInfo)
    (ha : materializeEncodingForTarget q tensorType first = some a)
    (hb : materializeEncodingForTarget q tensorType second = some b)
    (hpos : b.innerDimsPos = a.innerDimsPos) (hperm : b.outerDimsPerm = a.outerDimsPerm)
    (hlen : b.innerTileSizes.length = a.innerTileSizes.length) :
    getUpperBoundMaterializeEncodingFn q [first, second] tensorType =
      some { a with innerTileSizes := mergeInnerTileSizes a.innerTileSizes b.innerTileSizes } := by
  simp [getUpperBoundMaterializeEncodingFn, upperBoundLoop, ha, hb, hpos, hperm, hlen]

/-- A dynamic tile met first is overwritten by a later static one: the merge
keeps the static value, whatever it is above the least `int64_t`. -/
theorem mergeInnerTileSizes_dynamic_then_static (s : Int)
    (hs : ShapedType.kDynamic < s) :
    mergeInnerTileSizes [ShapedType.kDynamic] [s] = [s] ∧
    mergeInnerTileSizes [s] [ShapedType.kDynamic] = [ShapedType.kDynamic] := by
  have hne : s ≠ ShapedType.kDynamic := ne_of_gt hs
  constructor
  · simp [mergeInnerTileSizes, hne, max_eq_right (le_of_lt hs)]
  · simp [mergeInnerTileSizes]

/-- C14 fails on the code: for the left operand of an f32 matmul, the VMVX
target with microkernels materializes dynamic tiles and the x86-64 AVX-512
target the static tiles 16 x 1, with the same dimension positions and
permutation. Listed as VMVX then x86-64, the upper bound has the static tiles
16 x 1, not dynamic ones; listed the other way round it has dynamic tiles. -/
theorem getUpperBound_dynamic_then_static_is_static :
    materializeEncodingForTarget sampleQueries dynamicLhsType vmvxUkernelTarget =
      some { innerDimsPos := [0, 1],
             innerTileSizes := [ShapedType.kDynamic, ShapedType.kDynamic],
             outerDimsPerm := [] } ∧
    materializeEncodingForTarget sampleQueries dynamicLhsType x86Avx512Target =
      some { innerDimsPos := [0, 1], innerTileSizes := [16, 1], outerDimsPerm := [] } ∧
    getUpperBoundMaterializeEncodingFn sampleQueries [vmvxUkernelTarget, x86Avx512Target]
        dynamicLhsType =
      some { innerDimsPos := [0, 1], innerTileSizes := [16, 1], outerDimsPerm := [] } ∧
    getUpperBoundMaterializeEncodingFn sampleQueries [x86Avx512Target, vmvxUkernelTarget]
        dynamicLhsType =
      some { innerDimsPos := [0, 1],
             innerTileSizes := [ShapedType.kDynamic, ShapedType.kDynamic],
             outerDimsPerm := [] } := by
  refine ⟨by decide, by decide, by decide, by decide⟩

/-- C16: on every AArch64 target and on every x86-64 target, whatever its
features, `chooseMatmulTileParams` gives each 16-bit floating point user
(F16F16F32, F16F16F16, BF16BF16F32, BF16BF16BF16, plain and batch) the tile of
`MATMUL_F32F32F32` on that target, and gives each batch user the tile of its
plain counterpart, `I8I8I32` included. -/
theorem chooseMatmulTileParams_f16_as_f32_and_batch_as_plain {τ : Type}
    (q : TargetQueries τ) (target : τ)
    (harch : q.isAArch64 target = true ∨ q.isX86_64 target = true) :
    (∀ user ∈ [MATMUL_F16F16F32, MATMUL_F16F16F16, MATMUL_BF16BF16F32,
        MATMUL_BF16BF16BF16, BATCH_MATMUL_F16F16F32, BATCH_MATMUL_F16F16F16,
        BATCH_MATMUL_BF16BF16F32, BATCH_MATMUL_BF16BF16BF16],
      chooseMatmulTileParams q user target =
        chooseMatmulTileParams q MATMUL_F32F32F32 target) ∧
    chooseMatmulTileParams q BATCH_MATMUL_F32F32F32 target =
      chooseMatmulTileParams q MATMUL_F32F32F32 target ∧
    chooseMatmulTileParams q BATCH_MATMUL_F16F16F32 target =
      chooseMatmulTileParams q MATMUL_F16F16F32 target ∧
    chooseMatmulTileParams q BATCH_MATMUL_F16F16F16 target =
      chooseMatmulTileParams q MATMUL_F16F16F16 target ∧
    chooseMatmulTileParams q BATCH_MATMUL_BF16BF16F32 target =
      chooseMatmulTileParams q MATMUL_BF16BF16F32 target ∧
    chooseMatmulTileParams q BATCH_MATMUL_BF16BF16BF16 target =
      chooseMatmulTileParams q MATMUL_BF16BF16BF16 target ∧
    chooseMatmulTileParams q BATCH_MATMUL_I8I8I32 target =
      chooseMatmulTileParams q MATMUL_I8I8I32 target := by
  rcases harch with harm | hx86
  · refine ⟨?_, ?_, ?_, ?_, ?_, ?_, ?_⟩ <;>
      simp [chooseMatmulTileParams, chooseMatmulTileParamsAArch64, harm]
  · cases harm : q.isAArch64 target
    · refine ⟨?_, ?_, ?_, ?_, ?_, ?_, ?_⟩ <;>
        simp [chooseMatmulTileParams, chooseMatmulTileParamsX86_64, harm, hx86]
    · refine ⟨?_, ?_, ?_, ?_, ?_, ?_, ?_⟩ <;>
        simp [chooseMatmulTileParams, chooseMatmulTileParamsAArch64, harm]

/-- Witness for C16: on the x86-64 AVX-512 target the bf16 batch matmul gets
the f32 tile 16 x 1 x 16, and on the AArch64 dot-product target the batch i8
matmul gets the tile 8 x 4 x 8 of the plain one. -/
theorem chooseMatmulTileParams_f16_as_f32_and_batch_as_plain_witness :
    chooseMatmulTileParams sampleQueries BATCH_MATMUL_BF16BF16BF16 x86Avx512Target =
      chooseMatmulTileParams sampleQueries MATMUL_F32F32F32 x86Avx512Target ∧
    chooseMatmulTileParams sampleQueries MATMUL_F32F32F32 x86Avx512Target =
      { M := 16, K := 1, N := 16 } ∧
    chooseMatmulTileParams sampleQueries BATCH_MATMUL_I8I8I32 aarch64DotprodTarget =
      chooseMatmulTileParams sampleQueries MATMUL_I8I8I32 aarch64DotprodTarget ∧
    chooseMatmulTileParams sampleQueries MATMUL_I8I8I32 aarch64DotprodTarget =
      { M := 8, K := 4, N := 8 } :=
  ⟨(chooseMatmulTileParams_f16_as_f32_and_batch_as_plain sampleQueries x86Avx512Target
      (Or.inr (by decide))).1 BATCH_MATMUL_BF16BF16BF16 (by simp),
   by decide,
   (chooseMatmulTileParams_f16_as_f32_and_batch_as_plain sampleQueries
      aarch64DotprodTarget (Or.inl (by decide))).2.2.2.2.2.2,
   by decide⟩

end IreeCompiler
